import Mathlib

/-!
Verification of `tools/data_converter/update_infos_to_v2.py`.

The Python program manipulates nested dictionaries (loaded from pkl files)
whose leaves are `None`, numbers, strings, lists and sub-dictionaries.  We
embed such values as the inductive type `Val`; a Python `dict` is embedded
as an association list `Fields` in insertion order (Python dicts preserve
insertion order; assigning to a fresh key appends it, assigning to an
existing key updates it in place).  NumPy float arrays are embedded as
matrices of exact rationals (`List (List ℚ)`): matrix products are the
exact products, and `astype(np.float32)` is the identity under this
idealisation of IEEE arithmetic.
-/

/-- A Python value as manipulated by the converter: `None`, an integer, a
float (idealised as a rational), a string, a list, or a dictionary. -/
inductive Val where
  | vnone : Val
  | vint : Int → Val
  | vrat : ℚ → Val
  | vstr : String → Val
  | vlist : List Val → Val
  | vdict : List (String × Val) → Val

/-- A Python dictionary, as an association list in insertion order. -/
abbrev Fields := List (String × Val)

/-- Python `d[k]` as a total lookup: the value at the first occurrence of
key `k`, or `none` when the key is absent. -/
def getVal (fs : Fields) (k : String) : Option Val :=
  match fs with
  | [] => none
  | (k', v) :: rest => if k' = k then some v else getVal rest k

/-- Python `d[k] = v`: overwrite the value at an existing key in place, or
append a brand-new key at the end (insertion order of Python dicts). -/
def setVal (fs : Fields) (k : String) (v : Val) : Fields :=
  match fs with
  | [] => [(k, v)]
  | (k', v') :: rest =>
      if k' = k then (k', v) :: rest else (k', v') :: setVal rest k v

/-- Update the value at the first occurrence of key `k` in place (Python
mutates the looked-up value without copying the dictionary). -/
def updVal (fs : Fields) (k : String) (f : Val → Val) : Fields :=
  match fs with
  | [] => []
  | (k', v) :: rest =>
      if k' = k then (k', f v) :: rest else (k', v) :: updVal rest k f

/-- Python `d[k1][k2] = v` where `d[k1]` is a sub-dictionary: mutate the
sub-dictionary in place.  (All uses in the converter address keys whose
value is a dictionary built by the template builder.) -/
def setVal2 (fs : Fields) (k1 k2 : String) (v : Val) : Fields :=
  updVal fs k1 (fun w =>
    match w with
    | Val.vdict sub => Val.vdict (setVal sub k2 v)
    | w => w)

/-- Python `d[k1][k2][k3] = v` through two levels of sub-dictionaries. -/
def setVal3 (fs : Fields) (k1 k2 k3 : String) (v : Val) : Fields :=
  updVal fs k1 (fun w =>
    match w with
    | Val.vdict sub => Val.vdict (setVal2 sub k2 k3 v)
    | w => w)

/-- Python `s.add(x)` on a set modelled as a duplicate-free list (first
insertion order). -/
def setAdd (s : List String) (x : String) : List String :=
  if x ∈ s then s else s ++ [x]

/-- Python `needle in hay` on strings: substring containment. -/
def py_in (needle hay : String) : Bool :=
  decide (needle.toList <:+: hay.toList)

/-- Python `path.split('/')[-1]`. -/
def py_basename (s : String) : String :=
  (s.splitOn "/").getLastD ""

/-- Python `int(x)` on a float idealised as a rational: truncation towards
zero. -/
def int_of_rat (q : ℚ) : Int :=
  q.num.tdiv q.den

/-! ### Matrices

NumPy 2-d float arrays are embedded as `List (List ℚ)` (row major), with
exact rational arithmetic idealising IEEE floats; `astype(np.float32)` is
then the identity. -/

/-- A NumPy 2-d array, row major, with exact rational entries. -/
abbrev Mat := List (List ℚ)

/-- Dot product of two rows (rows of equal length in every use). -/
def dotProd (r c : List ℚ) : ℚ :=
  (List.zipWith (· * ·) r c).sum

/-- NumPy `m.transpose(1, 0)` for a rectangular matrix. -/
def matTranspose (m : Mat) : Mat :=
  (List.range (m.headD []).length).map (fun j => m.map (fun row => row.getD j 0))

/-- NumPy `a @ b`: matrix product (exact, on rectangular inputs). -/
def matMul (a b : Mat) : Mat :=
  a.map (fun row => (matTranspose b).map (fun col => dotProd row col))

/-- NumPy `m.astype(np.float32)`: the identity under the exact-rational
idealisation of floats used by this embedding. -/
def astype_float32 (m : Mat) : Mat := m

/-- NumPy `v.tolist()` for a 1-d float array. -/
def ratListToVal (v : List ℚ) : Val :=
  Val.vlist (v.map Val.vrat)

/-- NumPy `m.tolist()` for a 2-d float array. -/
def matToVal (m : Mat) : Val :=
  Val.vlist (m.map ratListToVal)

/-! ### The Pruner (`clear_instance_unused_keys`, `clear_data_info_unused_keys`) -/

/-- `clear_instance_unused_keys(instance)`: delete every key whose value is
`None`. -/
def clear_instance_unused_keys (inst : Fields) : Fields :=
  inst.filter (fun kv => match kv.2 with | Val.vnone => false | _ => true)

/-- `clear_data_info_unused_keys(data_info)`: walk the keys in order; the
key `'instances'` is kept and sets `empty_flag = False`; an empty list is
deleted, a non-empty list is kept (non-empty verdict); `None` is deleted;
a sub-dictionary is pruned recursively and deleted when the recursive call
reports empty; any other value is kept (non-empty verdict).  Returns the
pruned dictionary together with `empty_flag`. -/
def clear_data_info_unused_keys : Fields → Fields × Bool
  | [] => ([], true)
  | (k, v) :: rest =>
      let r := clear_data_info_unused_keys rest
      if k = "instances" then ((k, v) :: r.1, false)
      else
        match v with
        | Val.vlist [] => r
        | Val.vlist (x :: xs) => ((k, Val.vlist (x :: xs)) :: r.1, false)
        | Val.vnone => r
        | Val.vdict sub =>
            let s := clear_data_info_unused_keys sub
            if s.2 then r else ((k, Val.vdict s.1) :: r.1, false)
        | w => ((k, w) :: r.1, false)

/-- The pruned-dictionary component of `clear_data_info_unused_keys`
(the Python call sites bind the pair and keep the first component). -/
def prunedFields (fs : Fields) : Fields :=
  (clear_data_info_unused_keys fs).1

/-- Values of a shape the pruner always keeps: integers, rationals,
strings, and non-empty lists. -/
def keptVal : Val → Prop
  | Val.vnone => False
  | Val.vlist xs => xs ≠ []
  | Val.vdict _ => False
  | _ => True

/-! ### Schema Template Builder -/

/-- `get_empty_instance()`: the all-fields-unset instance template. -/
def get_empty_instance : Fields :=
  [("bbox", Val.vnone), ("bbox_label", Val.vnone), ("bbox_3d", Val.vnone),
   ("bbox_3d_isvalid", Val.vnone), ("bbox_label_3d", Val.vnone),
   ("depth", Val.vnone), ("center_2d", Val.vnone), ("attr_label", Val.vnone),
   ("num_lidar_pts", Val.vnone), ("num_radar_pts", Val.vnone),
   ("difficulty", Val.vnone), ("unaligned_bbox_3d", Val.vnone)]

/-- `get_empty_lidar_points()`. -/
def get_empty_lidar_points : Fields :=
  [("num_pts_feats", Val.vnone), ("lidar_path", Val.vnone),
   ("lidar2img", Val.vnone), ("lidar2ego", Val.vnone)]

/-- `get_empty_radar_points()`. -/
def get_empty_radar_points : Fields :=
  [("num_pts_feats", Val.vnone), ("radar_path", Val.vnone),
   ("radar2ego", Val.vnone)]

/-- `get_empty_img_info()`. -/
def get_empty_img_info : Fields :=
  [("img_path", Val.vnone), ("height", Val.vnone), ("width", Val.vnone),
   ("depth_map", Val.vnone), ("cam2img", Val.vnone), ("cam2ego", Val.vnone)]

/-- `get_single_image_sweep()`. -/
def get_single_image_sweep : Fields :=
  [("timestamp", Val.vnone), ("ego2global", Val.vnone),
   ("images", Val.vdict
      [("CAM0", Val.vdict get_empty_img_info),
       ("CAM1", Val.vdict get_empty_img_info),
       ("CAM2", Val.vdict get_empty_img_info),
       ("CAM3", Val.vdict get_empty_img_info)])]

/-- `get_empty_standard_data_info()`: `sample_id`/`token`, the splatted
single image sweep, lidar/radar points, sweep and instance lists, and the
mask paths, in the source's key order. -/
def get_empty_standard_data_info : Fields :=
  [("sample_id", Val.vnone), ("token", Val.vnone)] ++
  get_single_image_sweep ++
  [("lidar_points", Val.vdict get_empty_lidar_points),
   ("radar_points", Val.vdict get_empty_radar_points),
   ("image_sweeps", Val.vlist []),
   ("instances", Val.vlist []),
   ("instances_ignore", Val.vlist []),
   ("pts_semantic_mask_path", Val.vnone),
   ("pts_instance_mask_path", Val.vnone)]

/-! ### KITTI adapter (`update_kitti_infos`) -/

/-- `METAINFO['CLASSES']` of the KITTI adapter. -/
def KITTI_CLASSES : List String :=
  ["Pedestrian", "Cyclist", "Car", "Van", "Truck", "Person_sitting",
   "Tram", "Misc"]

/-- `ori_info_dict['calib']` of a KITTI source record. -/
structure KittiCalib where
  P0 : Mat
  P1 : Mat
  P2 : Mat
  P3 : Mat
  R0_rect : Mat
  Tr_velo_to_cam : Mat
  Tr_imu_to_velo : Mat

/-- `ori_info_dict['annos']` of a KITTI source record (aligned per-instance
arrays). -/
structure KittiAnnos where
  name : List String
  bbox : List (List ℚ)
  location : List (List ℚ)
  dimensions : List (List ℚ)
  rotation_y : List ℚ
  truncated : List ℚ
  occluded : List Int
  alpha : List ℚ
  score : List ℚ
  index : List Int
  group_ids : List Int
  difficulty : List Int
  num_points_in_gt : List Int

/-- One KITTI source record (`image`, `point_cloud`, `calib`, `annos`, and
the optional `plane`). -/
structure KittiSrc where
  image_idx : Int
  image_path : String
  image_shape : Int × Int
  num_features : Int
  velodyne_path : String
  calib : KittiCalib
  annos : KittiAnnos
  plane : Option (List ℚ)

/-- The shared label remap: positional index in the vocabulary when the
name is a member, `-1` otherwise (inlined in each adapter's loop body). -/
def label_of_name (classes : List String) (name : String) : Int :=
  if name ∈ classes then (classes.indexOf name : Int) else -1

/-- The body of the KITTI per-instance loop: populate the instance
template field by field (in source order, including the repeated `bbox`
assignments) and drop the still-unset keys. -/
def kitti_instance (anns : KittiAnnos) (i : Nat) : Fields :=
  let e := get_empty_instance
  let e := setVal e "bbox" (ratListToVal (anns.bbox.getD i []))
  let label := label_of_name KITTI_CLASSES (anns.name.getD i "")
  let e := setVal e "bbox_label" (Val.vint label)
  let e := setVal e "bbox" (ratListToVal (anns.bbox.getD i []))
  let gt_bboxes_3d := anns.location.getD i [] ++ anns.dimensions.getD i [] ++
    [anns.rotation_y.getD i 0]
  let e := setVal e "bbox_3d" (ratListToVal gt_bboxes_3d)
  let e := setVal e "bbox_label_3d" (Val.vint label)
  let e := setVal e "bbox" (ratListToVal (anns.bbox.getD i []))
  let e := setVal e "truncated" (Val.vint (int_of_rat (anns.truncated.getD i 0)))
  let e := setVal e "occluded" (Val.vint (anns.occluded.getD i 0))
  let e := setVal e "alpha" (Val.vrat (anns.alpha.getD i 0))
  let e := setVal e "score" (Val.vrat (anns.score.getD i 0))
  let e := setVal e "index" (Val.vint (anns.index.getD i 0))
  let e := setVal e "group_id" (Val.vint (anns.group_ids.getD i 0))
  let e := setVal e "difficulty" (Val.vint (anns.difficulty.getD i 0))
  let e := setVal e "num_lidar_pts" (Val.vint (anns.num_points_in_gt.getD i 0))
  clear_instance_unused_keys e

/-- The KITTI `instance_list`: the loop appends one pruned instance per
annotation row, recognised category or not. -/
def kitti_instance_list (anns : KittiAnnos) : List Fields :=
  (List.range anns.name.length).map (kitti_instance anns)

/-- The per-record `ignore_class_name` set as left at the end of the KITTI
instance loop (initialised empty at the top of each record's iteration). -/
def kitti_ignored (anns : KittiAnnos) : List String :=
  anns.name.foldl (fun s n => if n ∈ KITTI_CLASSES then s else setAdd s n) []

/-- `lidar2cam = rect @ Trv2c` with both factors cast to float32. -/
def kitti_lidar2cam (calib : KittiCalib) : Mat :=
  matMul (astype_float32 calib.R0_rect) (astype_float32 calib.Tr_velo_to_cam)

/-- One iteration of the KITTI conversion loop, before the final pruning:
the template populated field by field in source order. -/
def kitti_temp_data_info (ori : KittiSrc) : Fields :=
  let t := get_empty_standard_data_info
  let t := match ori.plane with
           | some p => setVal t "plane" (ratListToVal p)
           | none => t
  let t := setVal t "sample_id" (Val.vint ori.image_idx)
  let t := setVal3 t "images" "CAM0" "cam2img" (matToVal ori.calib.P0)
  let t := setVal3 t "images" "CAM1" "cam2img" (matToVal ori.calib.P1)
  let t := setVal3 t "images" "CAM2" "cam2img" (matToVal ori.calib.P2)
  let t := setVal3 t "images" "CAM3" "cam2img" (matToVal ori.calib.P3)
  let t := setVal3 t "images" "CAM2" "img_path"
    (Val.vstr (py_basename ori.image_path))
  let t := setVal3 t "images" "CAM2" "height" (Val.vint ori.image_shape.1)
  let t := setVal3 t "images" "CAM2" "width" (Val.vint ori.image_shape.2)
  let t := setVal2 t "lidar_points" "num_pts_feats" (Val.vint ori.num_features)
  let t := setVal2 t "lidar_points" "lidar_path"
    (Val.vstr (py_basename ori.velodyne_path))
  let lidar2cam := kitti_lidar2cam ori.calib
  let t := setVal3 t "images" "CAM2" "lidar2cam" (matToVal lidar2cam)
  let t := setVal3 t "images" "CAM0" "lidar2img"
    (matToVal (matMul ori.calib.P0 lidar2cam))
  let t := setVal3 t "images" "CAM1" "lidar2img"
    (matToVal (matMul ori.calib.P1 lidar2cam))
  let t := setVal3 t "images" "CAM2" "lidar2img"
    (matToVal (matMul ori.calib.P2 lidar2cam))
  let t := setVal3 t "images" "CAM3" "lidar2img"
    (matToVal (matMul ori.calib.P3 lidar2cam))
  let t := setVal2 t "lidar_points" "Tr_velo_to_cam"
    (matToVal (astype_float32 ori.calib.Tr_velo_to_cam))
  let t := setVal2 t "images" "R0_rect"
    (matToVal (astype_float32 ori.calib.R0_rect))
  let t := setVal2 t "lidar_points" "Tr_imu_to_velo"
    (matToVal (astype_float32 ori.calib.Tr_imu_to_velo))
  let t := setVal t "instances"
    (Val.vlist ((kitti_instance_list ori.annos).map Val.vdict))
  t

/-- One converted KITTI record: the populated template after the final
`clear_data_info_unused_keys`. -/
def convert_kitti_record (ori : KittiSrc) : Fields :=
  prunedFields (kitti_temp_data_info ori)

/-- `update_kitti_infos` as observable data: the overwrite-warning flag
(`out_dir in pkl_path`), the converted `data_list`, and the reported
`ignore_class_name` — the per-record loop variable as left by the *last*
record (`none` for an empty collection, where the report would fail). -/
def update_kitti_infos (pkl_path out_dir : String) (data_list : List KittiSrc) :
    Bool × List Fields × Option (List String) :=
  (py_in out_dir pkl_path,
   data_list.map convert_kitti_record,
   (data_list.map (fun ori => kitti_ignored ori.annos)).getLast?)

/-! ### ScanNet adapter (`update_scannet_infos`) -/

/-- `METAINFO['CLASSES']` of the ScanNet adapter. -/
def SCANNET_CLASSES : List String :=
  ["cabinet", "bed", "chair", "sofa", "table", "door", "window", "bookshelf",
   "picture", "counter", "desk", "curtain", "refrigerator", "showercurtrain",
   "toilet", "sink", "bathtub", "garbagebin"]

/-- `ori_info_dict['annos']` of a ScanNet source record. -/
structure ScannetAnnos where
  gt_num : Int
  name : List String
  gt_boxes_upright_depth : List (List ℚ)
  axis_align_matrix : Mat

/-- One ScanNet source record. -/
structure ScannetSrc where
  num_features : Int
  pts_path : String
  pts_semantic_mask_path : String
  pts_instance_mask_path : String
  annos : ScannetAnnos

/-- The body of the ScanNet per-instance loop. -/
def scannet_instance (anns : ScannetAnnos) (i : Nat) : Fields :=
  let e := get_empty_instance
  let e := setVal e "bbox_3d" (ratListToVal (anns.gt_boxes_upright_depth.getD i []))
  let label := label_of_name SCANNET_CLASSES (anns.name.getD i "")
  let e := setVal e "bbox_label_3d" (Val.vint label)
  clear_instance_unused_keys e

/-- The ScanNet `instance_list`: empty when `annos['gt_num'] == 0`,
otherwise one pruned instance per annotation row. -/
def scannet_instance_list (anns : ScannetAnnos) : List Fields :=
  if anns.gt_num = 0 then []
  else (List.range anns.name.length).map (scannet_instance anns)

/-- The per-record `ignore_class_name` set of the ScanNet loop (only
initialised when `gt_num != 0`). -/
def scannet_ignored (anns : ScannetAnnos) : Option (List String) :=
  if anns.gt_num = 0 then none
  else some (anns.name.foldl
    (fun s n => if n ∈ SCANNET_CLASSES then s else setAdd s n) [])

/-- One iteration of the ScanNet conversion loop, before the final
pruning. -/
def scannet_temp_data_info (ori : ScannetSrc) : Fields :=
  let t := get_empty_standard_data_info
  let t := setVal2 t "lidar_points" "num_pts_feats" (Val.vint ori.num_features)
  let t := setVal2 t "lidar_points" "lidar_path"
    (Val.vstr (py_basename ori.pts_path))
  let t := setVal t "pts_semantic_mask_path"
    (Val.vstr (py_basename ori.pts_semantic_mask_path))
  let t := setVal t "pts_instance_mask_path"
    (Val.vstr (py_basename ori.pts_instance_mask_path))
  let t := setVal t "axis_align_matrix" (matToVal ori.annos.axis_align_matrix)
  let t := setVal t "instances"
    (Val.vlist ((scannet_instance_list ori.annos).map Val.vdict))
  t

/-- One converted ScanNet record. -/
def convert_scannet_record (ori : ScannetSrc) : Fields :=
  prunedFields (scannet_temp_data_info ori)

/-- `update_scannet_infos` as observable data (the reported ignore set is
the loop variable as left by the last record that initialised it). -/
def update_scannet_infos (pkl_path out_dir : String)
    (data_list : List ScannetSrc) :
    Bool × List Fields × Option (List String) :=
  (py_in out_dir pkl_path,
   data_list.map convert_scannet_record,
   (data_list.filterMap (fun ori => scannet_ignored ori.annos)).getLast?)

/-! ### SUNRGBD adapter (`update_sunrgbd_infos`) -/

/-- `METAINFO['CLASSES']` of the SUNRGBD adapter. -/
def SUNRGBD_CLASSES : List String :=
  ["bed", "table", "sofa", "chair", "toilet", "desk", "dresser",
   "night_stand", "bookshelf", "bathtub"]

/-- `ori_info_dict['calib']` of a SUNRGBD source record. -/
structure SunrgbdCalib where
  K : Mat
  Rt : Mat

/-- `ori_info_dict['annos']` of a SUNRGBD source record. -/
structure SunrgbdAnnos where
  name : List String
  gt_boxes_upright_depth : List (List ℚ)

/-- One SUNRGBD source record. -/
structure SunrgbdSrc where
  num_features : Int
  pts_path : String
  calib : SunrgbdCalib
  image_path : String
  image_shape : Int × Int
  annos : SunrgbdAnnos

/-- The fixed coordinate-flip matrix `[[1, 0, 0], [0, 0, -1], [0, 1, 0]]`
(follows `Coord3DMode.convert_point`). -/
def sunrgbd_flip : Mat := [[1, 0, 0], [0, 0, -1], [0, 1, 0]]

/-- `depth2img = K @ (flip @ Rt.transpose(1, 0))`. -/
def sunrgbd_depth2img (calib : SunrgbdCalib) : Mat :=
  matMul calib.K (matMul sunrgbd_flip (matTranspose calib.Rt))

/-- The body of the SUNRGBD per-instance loop. -/
def sunrgbd_instance (anns : SunrgbdAnnos) (i : Nat) : Fields :=
  let e := get_empty_instance
  let e := setVal e "bbox_3d" (ratListToVal (anns.gt_boxes_upright_depth.getD i []))
  let label := label_of_name SUNRGBD_CLASSES (anns.name.getD i "")
  let e := setVal e "bbox_label_3d" (Val.vint label)
  clear_instance_unused_keys e

/-- The SUNRGBD `instance_list`. -/
def sunrgbd_instance_list (anns : SunrgbdAnnos) : List Fields :=
  (List.range anns.name.length).map (sunrgbd_instance anns)

/-- The per-record `ignore_class_name` set of the SUNRGBD loop. -/
def sunrgbd_ignored (anns : SunrgbdAnnos) : List String :=
  anns.name.foldl (fun s n => if n ∈ SUNRGBD_CLASSES then s else setAdd s n) []

/-- One iteration of the SUNRGBD conversion loop, before the final
pruning. -/
def sunrgbd_temp_data_info (ori : SunrgbdSrc) : Fields :=
  let t := get_empty_standard_data_info
  let t := setVal2 t "lidar_points" "num_pts_feats" (Val.vint ori.num_features)
  let t := setVal2 t "lidar_points" "lidar_path"
    (Val.vstr (py_basename ori.pts_path))
  let t := setVal3 t "images" "CAM0" "depth2img"
    (matToVal (sunrgbd_depth2img ori.calib))
  let t := setVal3 t "images" "CAM0" "img_path"
    (Val.vstr (py_basename ori.image_path))
  let t := setVal3 t "images" "CAM0" "height" (Val.vint ori.image_shape.1)
  let t := setVal3 t "images" "CAM0" "width" (Val.vint ori.image_shape.2)
  let t := setVal t "instances"
    (Val.vlist ((sunrgbd_instance_list ori.annos).map Val.vdict))
  t

/-- One converted SUNRGBD record. -/
def convert_sunrgbd_record (ori : SunrgbdSrc) : Fields :=
  prunedFields (sunrgbd_temp_data_info ori)

/-- `update_sunrgbd_infos` as observable data. -/
def update_sunrgbd_infos (pkl_path out_dir : String)
    (data_list : List SunrgbdSrc) :
    Bool × List Fields × Option (List String) :=
  (py_in out_dir pkl_path,
   data_list.map convert_sunrgbd_record,
   (data_list.map (fun ori => sunrgbd_ignored ori.annos)).getLast?)

/-! ### Conversion driver (`main`) -/

/-- The three supported adapters. -/
inductive Adapter where
  | kitti : Adapter
  | scannet : Adapter
  | sunrgbd : Adapter
  deriving DecidableEq

/-- Python `s.lower()` (ASCII case folding, character by character, which
is all the dataset identifiers exercise). -/
def py_lower (s : String) : String :=
  String.mk (s.toList.map Char.toLower)

/-- `main`'s dataset dispatch: `args.dataset.lower()` against the three
supported names in order; anything else raises
`NotImplementedError(f'Do not support convert {args.dataset} to v2.')`
before any conversion work. -/
def select_adapter (dataset : String) : Except String Adapter :=
  if py_lower dataset = "kitti" then Except.ok Adapter.kitti
  else if py_lower dataset = "scannet" then Except.ok Adapter.scannet
  else if py_lower dataset = "sunrgbd" then Except.ok Adapter.sunrgbd
  else Except.error ("Do not support convert " ++ dataset ++ " to v2.")

/-! ### Explicit forms of populated records (used to reason about the
pruning step) and concrete sample inputs. -/

/-- A CAM0/CAM1/CAM3 image-info block of a populated KITTI record before
pruning: the template with `cam2img` filled and `lidar2img` appended. -/
def kitti_cam_info (p li : Mat) : Fields :=
  [("img_path", Val.vnone), ("height", Val.vnone), ("width", Val.vnone),
   ("depth_map", Val.vnone), ("cam2img", matToVal p),
   ("cam2ego", Val.vnone), ("lidar2img", matToVal li)]

/-- The CAM2 image-info block of a populated KITTI record before pruning
(also carries the image path/shape and the appended `lidar2cam`). -/
def kitti_cam2_info (ori : KittiSrc) : Fields :=
  [("img_path", Val.vstr (py_basename ori.image_path)),
   ("height", Val.vint ori.image_shape.1),
   ("width", Val.vint ori.image_shape.2),
   ("depth_map", Val.vnone), ("cam2img", matToVal ori.calib.P2),
   ("cam2ego", Val.vnone),
   ("lidar2cam", matToVal (kitti_lidar2cam ori.calib)),
   ("lidar2img", matToVal (matMul ori.calib.P2 (kitti_lidar2cam ori.calib)))]

/-- The `images` sub-dictionary of a populated KITTI record before
pruning: the four camera templates updated in place, `lidar2cam` and the
four `lidar2img` matrices appended, and `R0_rect` appended last. -/
def kitti_images_val (ori : KittiSrc) : Fields :=
  [("CAM0", Val.vdict (kitti_cam_info ori.calib.P0
      (matMul ori.calib.P0 (kitti_lidar2cam ori.calib)))),
   ("CAM1", Val.vdict (kitti_cam_info ori.calib.P1
      (matMul ori.calib.P1 (kitti_lidar2cam ori.calib)))),
   ("CAM2", Val.vdict (kitti_cam2_info ori)),
   ("CAM3", Val.vdict (kitti_cam_info ori.calib.P3
      (matMul ori.calib.P3 (kitti_lidar2cam ori.calib)))),
   ("R0_rect", matToVal (astype_float32 ori.calib.R0_rect))]

/-- The `lidar_points` sub-dictionary of a populated KITTI record before
pruning. -/
def kitti_lidar_points_val (ori : KittiSrc) : Fields :=
  [("num_pts_feats", Val.vint ori.num_features),
   ("lidar_path", Val.vstr (py_basename ori.velodyne_path)),
   ("lidar2img", Val.vnone), ("lidar2ego", Val.vnone),
   ("Tr_velo_to_cam", matToVal (astype_float32 ori.calib.Tr_velo_to_cam)),
   ("Tr_imu_to_velo", matToVal (astype_float32 ori.calib.Tr_imu_to_velo))]

/-- The CAM0 image-info block of a populated SUNRGBD record before
pruning (`depth2img` is a fresh key, appended). -/
def sunrgbd_cam0_info (ori : SunrgbdSrc) : Fields :=
  [("img_path", Val.vstr (py_basename ori.image_path)),
   ("height", Val.vint ori.image_shape.1),
   ("width", Val.vint ori.image_shape.2),
   ("depth_map", Val.vnone), ("cam2img", Val.vnone),
   ("cam2ego", Val.vnone),
   ("depth2img", matToVal (sunrgbd_depth2img ori.calib))]

/-- The `images` sub-dictionary of a populated SUNRGBD record before
pruning: only `CAM0` is touched. -/
def sunrgbd_images_val (ori : SunrgbdSrc) : Fields :=
  [("CAM0", Val.vdict (sunrgbd_cam0_info ori)),
   ("CAM1", Val.vdict get_empty_img_info),
   ("CAM2", Val.vdict get_empty_img_info),
   ("CAM3", Val.vdict get_empty_img_info)]

/-- 4×4 identity matrix, a convenient concrete calibration. -/
def idMat4 : Mat :=
  [[1, 0, 0, 0], [0, 1, 0, 0], [0, 0, 1, 0], [0, 0, 0, 1]]

/-- 3×3 identity matrix. -/
def idMat3 : Mat := [[1, 0, 0], [0, 1, 0], [0, 0, 1]]

/-- A concrete KITTI calibration block. -/
def sampleKittiCalib : KittiCalib :=
  ⟨idMat4, idMat4, idMat4, idMat4, idMat4, idMat4, idMat4⟩

/-- Concrete, aligned KITTI annotation arrays for the given names. -/
def sampleKittiAnnos (names : List String) : KittiAnnos where
  name := names
  bbox := names.map fun _ => [0, 0, 1, 1]
  location := names.map fun _ => [0, 0, 0]
  dimensions := names.map fun _ => [1, 1, 1]
  rotation_y := names.map fun _ => 0
  truncated := names.map fun _ => 0
  occluded := names.map fun _ => 0
  alpha := names.map fun _ => 0
  score := names.map fun _ => 0
  index := names.map fun _ => 0
  group_ids := names.map fun _ => 0
  difficulty := names.map fun _ => 0
  num_points_in_gt := names.map fun _ => 0

/-- A concrete KITTI source record carrying the given instance names. -/
def sampleKittiSrc (names : List String) : KittiSrc where
  image_idx := 7
  image_path := "training/image_2/000007.png"
  image_shape := (370, 1224)
  num_features := 4
  velodyne_path := "training/velodyne/000007.bin"
  calib := sampleKittiCalib
  annos := sampleKittiAnnos names
  plane := none

/-- Concrete ScanNet annotations with the given `gt_num` and names. -/
def sampleScannetAnnos (n : Int) (names : List String) : ScannetAnnos where
  gt_num := n
  name := names
  gt_boxes_upright_depth := names.map fun _ => [0, 0, 0, 1, 1, 1]
  axis_align_matrix := idMat4

/-- A concrete ScanNet source record. -/
def sampleScannetSrc (n : Int) (names : List String) : ScannetSrc where
  num_features := 6
  pts_path := "points/scene0000_00.bin"
  pts_semantic_mask_path := "semantic_mask/scene0000_00.bin"
  pts_instance_mask_path := "instance_mask/scene0000_00.bin"
  annos := sampleScannetAnnos n names

/-- A concrete SUNRGBD source record. -/
def sampleSunrgbdSrc (names : List String) : SunrgbdSrc where
  num_features := 4
  pts_path := "points/000001.bin"
  calib := ⟨idMat3, idMat3⟩
  image_path := "image/000001.jpg"
  image_shape := (530, 730)
  annos := ⟨names, names.map fun _ => [0, 0, 0, 1, 1, 1, 0]⟩


/-! ### Lemmas about the Pruner -/

/-! Unfolding equations for `clear_data_info_unused_keys`, stated as plain
rewrite lemmas (the definition is compiled by well-founded recursion). -/

theorem cduk_nil : clear_data_info_unused_keys [] = ([], true) := by
  simp [clear_data_info_unused_keys]

theorem cduk_instances (v : Val) (rest : Fields) :
    clear_data_info_unused_keys (("instances", v) :: rest) =
      (("instances", v) :: (clear_data_info_unused_keys rest).1, false) := by
  rw [clear_data_info_unused_keys.eq_def]
  simp

theorem cduk_vnone {k : String} (hk : k ≠ "instances") (rest : Fields) :
    clear_data_info_unused_keys ((k, Val.vnone) :: rest) =
      clear_data_info_unused_keys rest := by
  simp [clear_data_info_unused_keys, hk]

theorem cduk_vlist_nil {k : String} (hk : k ≠ "instances") (rest : Fields) :
    clear_data_info_unused_keys ((k, Val.vlist []) :: rest) =
      clear_data_info_unused_keys rest := by
  simp [clear_data_info_unused_keys, hk]

theorem cduk_vlist_cons {k : String} (hk : k ≠ "instances") (x : Val)
    (xs : List Val) (rest : Fields) :
    clear_data_info_unused_keys ((k, Val.vlist (x :: xs)) :: rest) =
      ((k, Val.vlist (x :: xs)) :: (clear_data_info_unused_keys rest).1, false) := by
  simp [clear_data_info_unused_keys, hk]

theorem cduk_vdict_empty {k : String} (hk : k ≠ "instances") {sub : Fields}
    (hs : (clear_data_info_unused_keys sub).2 = true) (rest : Fields) :
    clear_data_info_unused_keys ((k, Val.vdict sub) :: rest) =
      clear_data_info_unused_keys rest := by
  simp [clear_data_info_unused_keys, hk, hs]

theorem cduk_vdict_keep {k : String} (hk : k ≠ "instances") {sub : Fields}
    (hs : (clear_data_info_unused_keys sub).2 = false) (rest : Fields) :
    clear_data_info_unused_keys ((k, Val.vdict sub) :: rest) =
      ((k, Val.vdict (clear_data_info_unused_keys sub).1) ::
        (clear_data_info_unused_keys rest).1, false) := by
  simp [clear_data_info_unused_keys, hk, hs]

theorem cduk_vint {k : String} (hk : k ≠ "instances") (n : Int) (rest : Fields) :
    clear_data_info_unused_keys ((k, Val.vint n) :: rest) =
      ((k, Val.vint n) :: (clear_data_info_unused_keys rest).1, false) := by
  simp [clear_data_info_unused_keys, hk]

theorem cduk_vrat {k : String} (hk : k ≠ "instances") (q : ℚ) (rest : Fields) :
    clear_data_info_unused_keys ((k, Val.vrat q) :: rest) =
      ((k, Val.vrat q) :: (clear_data_info_unused_keys rest).1, false) := by
  simp [clear_data_info_unused_keys, hk]

theorem cduk_vstr {k : String} (hk : k ≠ "instances") (s : String) (rest : Fields) :
    clear_data_info_unused_keys ((k, Val.vstr s) :: rest) =
      ((k, Val.vstr s) :: (clear_data_info_unused_keys rest).1, false) := by
  simp [clear_data_info_unused_keys, hk]

/-- The emptiness flag is `true` exactly when the pruned dictionary has no
fields left. -/
theorem cduk_flag_iff_nil (fs : Fields) :
    (clear_data_info_unused_keys fs).2 = true ↔
      (clear_data_info_unused_keys fs).1 = [] := by
  induction fs using clear_data_info_unused_keys.induct with
  | case1 => simp [cduk_nil]
  | case2 v rest ih => simp [cduk_instances]
  | case3 k rest hk ih => simp [cduk_vlist_nil hk, ih]
  | case4 k rest hk x xs ih => simp [cduk_vlist_cons hk]
  | case5 k rest hk ih => simp [cduk_vnone hk, ih]
  | case6 k rest hk sub s hs ihrest ihsub =>
      simp [cduk_vdict_empty hk hs, ihrest]
  | case7 k rest hk sub s hs ihrest ihsub =>
      simp only [Bool.not_eq_true] at hs
      simp [cduk_vdict_keep hk hs]
  | case8 k rest hk w h1 h2 h3 h4 ih =>
      cases w with
      | vnone => exact absurd rfl h3
      | vint n => simp [cduk_vint hk]
      | vrat q => simp [cduk_vrat hk]
      | vstr s => simp [cduk_vstr hk]
      | vlist xs =>
          cases xs with
          | nil => exact absurd rfl h1
          | cons x xs => exact absurd rfl (h2 x xs)
      | vdict sub => exact absurd rfl (h4 sub)

/-- Pruning is idempotent, including the emptiness verdict. -/
theorem cduk_idem (fs : Fields) :
    clear_data_info_unused_keys (clear_data_info_unused_keys fs).1 =
      clear_data_info_unused_keys fs := by
  induction fs using clear_data_info_unused_keys.induct with
  | case1 => simp [cduk_nil]
  | case2 v rest ih =>
      simp [cduk_instances, ih]
  | case3 k rest hk ih => simp [cduk_vlist_nil hk, ih]
  | case4 k rest hk x xs ih =>
      simp [cduk_vlist_cons hk, ih]
  | case5 k rest hk ih => simp [cduk_vnone hk, ih]
  | case6 k rest hk sub s hs ihrest ihsub =>
      simp [cduk_vdict_empty hk hs, ihrest]
  | case7 k rest hk sub s hs ihrest ihsub =>
      simp only [Bool.not_eq_true] at hs
      have hs2 : (clear_data_info_unused_keys
          (clear_data_info_unused_keys sub).1).2 = false := by rw [ihsub, hs]
      simp [cduk_vdict_keep hk hs, cduk_vdict_keep hk hs2, ihsub, ihrest]
  | case8 k rest hk w h1 h2 h3 h4 ih =>
      cases w with
      | vnone => exact absurd rfl h3
      | vint n => simp [cduk_vint hk, ih]
      | vrat q => simp [cduk_vrat hk, ih]
      | vstr s => simp [cduk_vstr hk, ih]
      | vlist xs =>
          cases xs with
          | nil => exact absurd rfl h1
          | cons x xs => exact absurd rfl (h2 x xs)
      | vdict sub => exact absurd rfl (h4 sub)

/-- `clear_instance_unused_keys` is idempotent. -/
theorem ciuk_idem (inst : Fields) :
    clear_instance_unused_keys (clear_instance_unused_keys inst) =
      clear_instance_unused_keys inst := by
  unfold clear_instance_unused_keys
  rw [List.filter_filter]
  congr 1
  funext kv
  cases kv.2 <;> rfl

/-- Every `'instances'` entry of the input survives pruning. -/
theorem cduk_mem_instances {fs : Fields} {v : Val}
    (h : ("instances", v) ∈ fs) :
    ("instances", v) ∈ (clear_data_info_unused_keys fs).1 := by
  induction fs using clear_data_info_unused_keys.induct with
  | case1 => cases h
  | case2 w rest ih =>
      rw [cduk_instances]
      rcases List.mem_cons.1 h with h' | h'
      · exact List.mem_cons.2 (Or.inl h')
      · exact List.mem_cons.2 (Or.inr (ih h'))
  | case3 k rest hk ih =>
      rw [cduk_vlist_nil hk]
      rcases List.mem_cons.1 h with h' | h'
      · exact absurd (congrArg Prod.fst h'.symm) hk
      · exact ih h'
  | case4 k rest hk x xs ih =>
      rw [cduk_vlist_cons hk]
      rcases List.mem_cons.1 h with h' | h'
      · exact absurd (congrArg Prod.fst h'.symm) hk
      · exact List.mem_cons.2 (Or.inr (ih h'))
  | case5 k rest hk ih =>
      rw [cduk_vnone hk]
      rcases List.mem_cons.1 h with h' | h'
      · exact absurd (congrArg Prod.fst h'.symm) hk
      · exact ih h'
  | case6 k rest hk sub s hs ihrest ihsub =>
      rw [cduk_vdict_empty hk hs]
      rcases List.mem_cons.1 h with h' | h'
      · exact absurd (congrArg Prod.fst h'.symm) hk
      · exact ihrest h'
  | case7 k rest hk sub s hs ihrest ihsub =>
      simp only [Bool.not_eq_true] at hs
      rw [cduk_vdict_keep hk hs]
      rcases List.mem_cons.1 h with h' | h'
      · exact absurd (congrArg Prod.fst h'.symm) hk
      · exact List.mem_cons.2 (Or.inr (ihrest h'))
  | case8 k rest hk w h1 h2 h3 h4 ih =>
      rcases List.mem_cons.1 h with h' | h'
      · exact absurd (congrArg Prod.fst h'.symm) hk
      · cases w with
        | vnone => exact absurd rfl h3
        | vint n => rw [cduk_vint hk]; exact List.mem_cons.2 (Or.inr (ih h'))
        | vrat q => rw [cduk_vrat hk]; exact List.mem_cons.2 (Or.inr (ih h'))
        | vstr s => rw [cduk_vstr hk]; exact List.mem_cons.2 (Or.inr (ih h'))
        | vlist xs =>
            cases xs with
            | nil => exact absurd rfl h1
            | cons x xs => exact absurd rfl (h2 x xs)
        | vdict sub => exact absurd rfl (h4 sub)

/-- Looking up `'instances'` after pruning gives the same value as before. -/
theorem cduk_lookup_instances (fs : Fields) :
    getVal (clear_data_info_unused_keys fs).1 "instances" =
      getVal fs "instances" := by
  induction fs using clear_data_info_unused_keys.induct with
  | case1 => rw [cduk_nil]
  | case2 v rest ih => rw [cduk_instances]; simp [getVal]
  | case3 k rest hk ih => rw [cduk_vlist_nil hk]; simp [getVal, hk, ih]
  | case4 k rest hk x xs ih => rw [cduk_vlist_cons hk]; simp [getVal, hk, ih]
  | case5 k rest hk ih => rw [cduk_vnone hk]; simp [getVal, hk, ih]
  | case6 k rest hk sub s hs ihrest ihsub =>
      rw [cduk_vdict_empty hk hs]; simp [getVal, hk, ihrest]
  | case7 k rest hk sub s hs ihrest ihsub =>
      simp only [Bool.not_eq_true] at hs
      rw [cduk_vdict_keep hk hs]; simp [getVal, hk, ihrest]
  | case8 k rest hk w h1 h2 h3 h4 ih =>
      cases w with
      | vnone => exact absurd rfl h3
      | vint n => rw [cduk_vint hk]; simp [getVal, hk, ih]
      | vrat q => rw [cduk_vrat hk]; simp [getVal, hk, ih]
      | vstr s => rw [cduk_vstr hk]; simp [getVal, hk, ih]
      | vlist xs =>
          cases xs with
          | nil => exact absurd rfl h1
          | cons x xs => exact absurd rfl (h2 x xs)
      | vdict sub => exact absurd rfl (h4 sub)

/-- Looking up a key (other than `'instances'`) whose value the pruner
keeps gives the same value after pruning. -/
theorem cduk_lookup_keep {fs : Fields} {k : String} {v : Val}
    (hk : k ≠ "instances") (h : getVal fs k = some v) (hv : keptVal v) :
    getVal (clear_data_info_unused_keys fs).1 k = some v := by
  induction fs using clear_data_info_unused_keys.induct with
  | case1 => simp [getVal] at h
  | case2 w rest ih =>
      rw [cduk_instances]
      rw [getVal] at h ⊢
      rw [if_neg (fun hh => hk hh.symm)] at h ⊢
      exact ih h
  | case3 k' rest hk' ih =>
      rw [cduk_vlist_nil hk']
      rw [getVal] at h
      by_cases hkk : k' = k
      · subst hkk; rw [if_pos rfl] at h
        cases h; exact absurd rfl hv
      · rw [if_neg hkk] at h; exact ih h
  | case4 k' rest hk' x xs ih =>
      rw [cduk_vlist_cons hk']
      rw [getVal] at h ⊢
      by_cases hkk : k' = k
      · rw [if_pos hkk] at h ⊢; exact h
      · rw [if_neg hkk] at h ⊢; exact ih h
  | case5 k' rest hk' ih =>
      rw [cduk_vnone hk']
      rw [getVal] at h
      by_cases hkk : k' = k
      · subst hkk; rw [if_pos rfl] at h
        cases h; exact absurd hv id
      · rw [if_neg hkk] at h; exact ih h
  | case6 k' rest hk' sub s hs ihrest ihsub =>
      rw [cduk_vdict_empty hk' hs]
      rw [getVal] at h
      by_cases hkk : k' = k
      · subst hkk; rw [if_pos rfl] at h
        cases h; exact absurd hv id
      · rw [if_neg hkk] at h; exact ihrest h
  | case7 k' rest hk' sub s hs ihrest ihsub =>
      simp only [Bool.not_eq_true] at hs
      rw [cduk_vdict_keep hk' hs]
      rw [getVal] at h ⊢
      by_cases hkk : k' = k
      · subst hkk; rw [if_pos rfl] at h
        cases h; exact absurd hv id
      · rw [if_neg hkk] at h ⊢; exact ihrest h
  | case8 k' rest hk' w h1 h2 h3 h4 ih =>
      rw [getVal] at h
      by_cases hkk : k' = k
      · subst hkk; rw [if_pos rfl] at h
        cases h
        cases v with
        | vnone => exact absurd rfl h3
        | vint n => rw [cduk_vint hk']; simp [getVal]
        | vrat q => rw [cduk_vrat hk']; simp [getVal]
        | vstr s => rw [cduk_vstr hk']; simp [getVal]
        | vlist xs =>
            cases xs with
            | nil => exact absurd rfl h1
            | cons x xs => rw [cduk_vlist_cons hk']; simp [getVal]
        | vdict sub => exact absurd rfl (h4 sub)
      · rw [if_neg hkk] at h
        cases w with
        | vnone => exact absurd rfl h3
        | vint n => rw [cduk_vint hk']; rw [getVal, if_neg hkk]; exact ih h
        | vrat q => rw [cduk_vrat hk']; rw [getVal, if_neg hkk]; exact ih h
        | vstr s => rw [cduk_vstr hk']; rw [getVal, if_neg hkk]; exact ih h
        | vlist xs =>
            cases xs with
            | nil => exact absurd rfl h1
            | cons x xs => exact absurd rfl (h2 x xs)
        | vdict sub => exact absurd rfl (h4 sub)

/-- Looking up a key (other than `'instances'`) holding a sub-dictionary
that does not prune to empty gives the pruned sub-dictionary. -/
theorem cduk_lookup_dict {fs : Fields} {k : String} {sub : Fields}
    (hk : k ≠ "instances") (h : getVal fs k = some (Val.vdict sub))
    (hs : (clear_data_info_unused_keys sub).2 = false) :
    getVal (clear_data_info_unused_keys fs).1 k =
      some (Val.vdict (clear_data_info_unused_keys sub).1) := by
  induction fs using clear_data_info_unused_keys.induct with
  | case1 => simp [getVal] at h
  | case2 w rest ih =>
      rw [cduk_instances]
      rw [getVal] at h ⊢
      rw [if_neg (fun hh => hk hh.symm)] at h ⊢
      exact ih h
  | case3 k' rest hk' ih =>
      rw [cduk_vlist_nil hk']
      rw [getVal] at h
      by_cases hkk : k' = k
      · subst hkk; rw [if_pos rfl] at h; cases h
      · rw [if_neg hkk] at h; exact ih h
  | case4 k' rest hk' x xs ih =>
      rw [cduk_vlist_cons hk']
      rw [getVal] at h ⊢
      by_cases hkk : k' = k
      · rw [if_pos hkk] at h; cases h
      · rw [if_neg hkk] at h ⊢; exact ih h
  | case5 k' rest hk' ih =>
      rw [cduk_vnone hk']
      rw [getVal] at h
      by_cases hkk : k' = k
      · subst hkk; rw [if_pos rfl] at h; cases h
      · rw [if_neg hkk] at h; exact ih h
  | case6 k' rest hk' sub' s hs' ihrest ihsub =>
      rw [cduk_vdict_empty hk' hs']
      rw [getVal] at h
      by_cases hkk : k' = k
      · subst hkk; rw [if_pos rfl] at h
        cases h; rw [hs'] at hs; cases hs
      · rw [if_neg hkk] at h; exact ihrest h
  | case7 k' rest hk' sub' s hs' ihrest ihsub =>
      simp only [Bool.not_eq_true] at hs'
      rw [cduk_vdict_keep hk' hs']
      rw [getVal] at h ⊢
      by_cases hkk : k' = k
      · subst hkk; rw [if_pos rfl] at h
        cases h; rw [if_pos rfl]
      · rw [if_neg hkk] at h ⊢; exact ihrest h
  | case8 k' rest hk' w h1 h2 h3 h4 ih =>
      rw [getVal] at h
      by_cases hkk : k' = k
      · subst hkk; rw [if_pos rfl] at h
        cases h; exact absurd rfl (h4 sub)
      · rw [if_neg hkk] at h
        cases w with
        | vnone => exact absurd rfl h3
        | vint n => rw [cduk_vint hk']; rw [getVal, if_neg hkk]; exact ih h
        | vrat q => rw [cduk_vrat hk']; rw [getVal, if_neg hkk]; exact ih h
        | vstr s => rw [cduk_vstr hk']; rw [getVal, if_neg hkk]; exact ih h
        | vlist xs =>
            cases xs with
            | nil => exact absurd rfl h1
            | cons x xs => exact absurd rfl (h2 x xs)
        | vdict sub' => exact absurd rfl (h4 sub')

/-- A successful lookup in the pruned dictionary forces the emptiness flag
to be `false`. -/
theorem cduk_flag_false_of_lookup {fs : Fields} {k : String} {v : Val}
    (h : getVal (clear_data_info_unused_keys fs).1 k = some v) :
    (clear_data_info_unused_keys fs).2 = false := by
  cases hf : (clear_data_info_unused_keys fs).2 with
  | false => rfl
  | true =>
      rw [(cduk_flag_iff_nil fs).1 hf] at h
      simp [getVal] at h

/-! ### Step lemmas for dictionary updates and lookups (stated without
`ite` so that concrete dictionaries evaluate cheaply by rewriting). -/

theorem setVal_nil (k : String) (v : Val) : setVal [] k v = [(k, v)] := rfl

theorem setVal_cons_eq (k : String) (v' v : Val) (rest : Fields) :
    setVal ((k, v') :: rest) k v = (k, v) :: rest := by simp [setVal]

theorem setVal_cons_ne {k' k : String} (h : ¬ k' = k) (v' v : Val)
    (rest : Fields) :
    setVal ((k', v') :: rest) k v = (k', v') :: setVal rest k v := by
  simp [setVal, h]

theorem updVal_nil (k : String) (f : Val → Val) : updVal [] k f = [] := rfl

theorem updVal_cons_eq (k : String) (v : Val) (f : Val → Val) (rest : Fields) :
    updVal ((k, v) :: rest) k f = (k, f v) :: rest := by simp [updVal]

theorem updVal_cons_ne {k' k : String} (h : ¬ k' = k) (v : Val)
    (f : Val → Val) (rest : Fields) :
    updVal ((k', v) :: rest) k f = (k', v) :: updVal rest k f := by
  simp [updVal, h]

theorem getVal_nil (k : String) : getVal [] k = none := rfl

theorem getVal_cons_eq (k : String) (v : Val) (rest : Fields) :
    getVal ((k, v) :: rest) k = some v := by simp [getVal]

theorem getVal_cons_ne {k' k : String} (h : ¬ k' = k) (v : Val)
    (rest : Fields) :
    getVal ((k', v) :: rest) k = getVal rest k := by simp [getVal, h]

/-! ### Explicit literal forms of the populated records -/

/-- The populated KITTI record before pruning, as a literal dictionary
(the optional `plane`, being a fresh key, sits at the end). -/
theorem kitti_temp_eq (ori : KittiSrc) :
    kitti_temp_data_info ori =
      [("sample_id", Val.vint ori.image_idx), ("token", Val.vnone),
       ("timestamp", Val.vnone), ("ego2global", Val.vnone),
       ("images", Val.vdict (kitti_images_val ori)),
       ("lidar_points", Val.vdict (kitti_lidar_points_val ori)),
       ("radar_points", Val.vdict get_empty_radar_points),
       ("image_sweeps", Val.vlist []),
       ("instances", Val.vlist ((kitti_instance_list ori.annos).map Val.vdict)),
       ("instances_ignore", Val.vlist []),
       ("pts_semantic_mask_path", Val.vnone),
       ("pts_instance_mask_path", Val.vnone)] ++
      (match ori.plane with
       | some p => [("plane", ratListToVal p)]
       | none => []) := by
  obtain ⟨idx, path, shape, nf, vp, calib, annos, plane⟩ := ori
  cases plane <;>
    simp only [kitti_temp_data_info, setVal3, setVal2,
      get_empty_standard_data_info, get_single_image_sweep, get_empty_img_info,
      get_empty_lidar_points, get_empty_radar_points, kitti_cam_info,
      kitti_cam2_info, kitti_images_val, kitti_lidar_points_val, List.cons_append,
      List.nil_append, setVal_nil, setVal_cons_eq, setVal_cons_ne,
      updVal_nil, updVal_cons_eq, updVal_cons_ne, String.reduceEq,
      ne_eq, not_false_eq_true]

/-- The populated SUNRGBD record before pruning, as a literal
dictionary. -/
theorem sunrgbd_temp_eq (ori : SunrgbdSrc) :
    sunrgbd_temp_data_info ori =
      [("sample_id", Val.vnone), ("token", Val.vnone),
       ("timestamp", Val.vnone), ("ego2global", Val.vnone),
       ("images", Val.vdict (sunrgbd_images_val ori)),
       ("lidar_points", Val.vdict
          [("num_pts_feats", Val.vint ori.num_features),
           ("lidar_path", Val.vstr (py_basename ori.pts_path)),
           ("lidar2img", Val.vnone), ("lidar2ego", Val.vnone)]),
       ("radar_points", Val.vdict get_empty_radar_points),
       ("image_sweeps", Val.vlist []),
       ("instances", Val.vlist ((sunrgbd_instance_list ori.annos).map Val.vdict)),
       ("instances_ignore", Val.vlist []),
       ("pts_semantic_mask_path", Val.vnone),
       ("pts_instance_mask_path", Val.vnone)] := by
  simp only [sunrgbd_temp_data_info, setVal3, setVal2,
    get_empty_standard_data_info, get_single_image_sweep, get_empty_img_info,
    get_empty_lidar_points, get_empty_radar_points, sunrgbd_cam0_info,
    sunrgbd_images_val,
    List.cons_append, List.nil_append, setVal_nil, setVal_cons_eq,
    setVal_cons_ne, updVal_nil, updVal_cons_eq, updVal_cons_ne,
    String.reduceEq, ne_eq, not_false_eq_true]

/-- Unfolding `prunedFields` (kept separate so that kernel-level
unfolding never has to reduce the pruner applied to a long update
chain). -/
theorem prunedFields_eq (fs : Fields) :
    prunedFields fs = (clear_data_info_unused_keys fs).1 := rfl

/-- The populated ScanNet record before pruning, as a literal
dictionary (`axis_align_matrix`, a fresh key, sits at the end). -/
theorem scannet_temp_eq (ori : ScannetSrc) :
    scannet_temp_data_info ori =
      [("sample_id", Val.vnone), ("token", Val.vnone),
       ("timestamp", Val.vnone), ("ego2global", Val.vnone),
       ("images", Val.vdict
          [("CAM0", Val.vdict get_empty_img_info),
           ("CAM1", Val.vdict get_empty_img_info),
           ("CAM2", Val.vdict get_empty_img_info),
           ("CAM3", Val.vdict get_empty_img_info)]),
       ("lidar_points", Val.vdict
          [("num_pts_feats", Val.vint ori.num_features),
           ("lidar_path", Val.vstr (py_basename ori.pts_path)),
           ("lidar2img", Val.vnone), ("lidar2ego", Val.vnone)]),
       ("radar_points", Val.vdict get_empty_radar_points),
       ("image_sweeps", Val.vlist []),
       ("instances", Val.vlist ((scannet_instance_list ori.annos).map Val.vdict)),
       ("instances_ignore", Val.vlist []),
       ("pts_semantic_mask_path", Val.vstr (py_basename ori.pts_semantic_mask_path)),
       ("pts_instance_mask_path", Val.vstr (py_basename ori.pts_instance_mask_path)),
       ("axis_align_matrix", matToVal ori.annos.axis_align_matrix)] := by
  simp only [scannet_temp_data_info, setVal3, setVal2,
    get_empty_standard_data_info, get_single_image_sweep, get_empty_img_info,
    get_empty_lidar_points, get_empty_radar_points, List.cons_append,
    List.nil_append, setVal_nil, setVal_cons_eq, setVal_cons_ne,
    updVal_nil, updVal_cons_eq, updVal_cons_ne, String.reduceEq,
    ne_eq, not_false_eq_true]

/-! ### Field lookups on converted records -/

/-- The `instances` value of a converted ScanNet record survives the
pruning unchanged. -/
theorem scannet_instances_lookup (ori : ScannetSrc) :
    getVal (convert_scannet_record ori) "instances" =
      some (Val.vlist ((scannet_instance_list ori.annos).map Val.vdict)) := by
  rw [convert_scannet_record, scannet_temp_eq, prunedFields_eq,
    cduk_lookup_instances]
  simp only [getVal_cons_eq, getVal_cons_ne, String.reduceEq, ne_eq,
    not_false_eq_true]

/-- The `instances` value of a converted KITTI record survives the
pruning unchanged. -/
theorem kitti_instances_lookup (ori : KittiSrc) :
    getVal (convert_kitti_record ori) "instances" =
      some (Val.vlist ((kitti_instance_list ori.annos).map Val.vdict)) := by
  rw [convert_kitti_record, kitti_temp_eq, prunedFields_eq,
    cduk_lookup_instances]
  cases ori.plane <;>
    simp only [getVal_cons_eq, getVal_cons_ne, String.reduceEq, ne_eq,
      not_false_eq_true, List.cons_append, List.nil_append]

/-- The `instances` value of a converted SUNRGBD record survives the
pruning unchanged. -/
theorem sunrgbd_instances_lookup (ori : SunrgbdSrc) :
    getVal (convert_sunrgbd_record ori) "instances" =
      some (Val.vlist ((sunrgbd_instance_list ori.annos).map Val.vdict)) := by
  rw [convert_sunrgbd_record, sunrgbd_temp_eq, prunedFields_eq,
    cduk_lookup_instances]
  simp only [getVal_cons_eq, getVal_cons_ne, String.reduceEq, ne_eq,
    not_false_eq_true]

/-! Step lemmas for `clear_instance_unused_keys` on literal
dictionaries. -/

theorem ciuk_nil : clear_instance_unused_keys [] = [] := rfl

theorem ciuk_vnone (k : String) (rest : Fields) :
    clear_instance_unused_keys ((k, Val.vnone) :: rest) =
      clear_instance_unused_keys rest := by
  simp [clear_instance_unused_keys]

theorem ciuk_vint (k : String) (n : Int) (rest : Fields) :
    clear_instance_unused_keys ((k, Val.vint n) :: rest) =
      (k, Val.vint n) :: clear_instance_unused_keys rest := by
  simp [clear_instance_unused_keys]

theorem ciuk_vrat (k : String) (q : ℚ) (rest : Fields) :
    clear_instance_unused_keys ((k, Val.vrat q) :: rest) =
      (k, Val.vrat q) :: clear_instance_unused_keys rest := by
  simp [clear_instance_unused_keys]

theorem ciuk_vstr (k : String) (s : String) (rest : Fields) :
    clear_instance_unused_keys ((k, Val.vstr s) :: rest) =
      (k, Val.vstr s) :: clear_instance_unused_keys rest := by
  simp [clear_instance_unused_keys]

theorem ciuk_vlist (k : String) (xs : List Val) (rest : Fields) :
    clear_instance_unused_keys ((k, Val.vlist xs) :: rest) =
      (k, Val.vlist xs) :: clear_instance_unused_keys rest := by
  simp [clear_instance_unused_keys]

/-- The `bbox_label` of the `i`-th KITTI instance is the inlined label
remap of the `i`-th name. -/
theorem kitti_bbox_label_lookup (anns : KittiAnnos) (i : Nat) :
    getVal (kitti_instance anns i) "bbox_label" =
      some (Val.vint (label_of_name KITTI_CLASSES (anns.name.getD i ""))) := by
  simp only [kitti_instance, get_empty_instance, setVal_nil, setVal_cons_eq,
    setVal_cons_ne, String.reduceEq, ne_eq, not_false_eq_true, ratListToVal,
    ciuk_nil, ciuk_vnone, ciuk_vint, ciuk_vrat, ciuk_vstr, ciuk_vlist,
    getVal_cons_eq, getVal_cons_ne]

/-- The `bbox_label_3d` of the `i`-th KITTI instance equals its
`bbox_label` (the deep copy). -/
theorem kitti_bbox_label_3d_lookup (anns : KittiAnnos) (i : Nat) :
    getVal (kitti_instance anns i) "bbox_label_3d" =
      some (Val.vint (label_of_name KITTI_CLASSES (anns.name.getD i ""))) := by
  simp only [kitti_instance, get_empty_instance, setVal_nil, setVal_cons_eq,
    setVal_cons_ne, String.reduceEq, ne_eq, not_false_eq_true, ratListToVal,
    ciuk_nil, ciuk_vnone, ciuk_vint, ciuk_vrat, ciuk_vstr, ciuk_vlist,
    getVal_cons_eq, getVal_cons_ne]

/-- The `bbox_label_3d` of the `i`-th ScanNet instance. -/
theorem scannet_bbox_label_3d_lookup (anns : ScannetAnnos) (i : Nat) :
    getVal (scannet_instance anns i) "bbox_label_3d" =
      some (Val.vint (label_of_name SCANNET_CLASSES (anns.name.getD i ""))) := by
  simp only [scannet_instance, get_empty_instance, setVal_nil, setVal_cons_eq,
    setVal_cons_ne, String.reduceEq, ne_eq, not_false_eq_true, ratListToVal,
    ciuk_nil, ciuk_vnone, ciuk_vint, ciuk_vrat, ciuk_vstr, ciuk_vlist,
    getVal_cons_eq, getVal_cons_ne]

/-- The `bbox_label_3d` of the `i`-th SUNRGBD instance. -/
theorem sunrgbd_bbox_label_3d_lookup (anns : SunrgbdAnnos) (i : Nat) :
    getVal (sunrgbd_instance anns i) "bbox_label_3d" =
      some (Val.vint (label_of_name SUNRGBD_CLASSES (anns.name.getD i ""))) := by
  simp only [sunrgbd_instance, get_empty_instance, setVal_nil, setVal_cons_eq,
    setVal_cons_ne, String.reduceEq, ne_eq, not_false_eq_true, ratListToVal,
    ciuk_nil, ciuk_vnone, ciuk_vint, ciuk_vrat, ciuk_vstr, ciuk_vlist,
    getVal_cons_eq, getVal_cons_ne]

/-- The label remap in isolation: `-1` exactly for out-of-vocabulary
names; members get their positional index. -/
theorem label_of_name_spec (classes : List String) (name : String) :
    (label_of_name classes name = -1 ↔ name ∉ classes) ∧
    (name ∈ classes →
      label_of_name classes name = (classes.indexOf name : Int) ∧
      classes[(label_of_name classes name).toNat]? = some name) := by
  constructor
  · constructor
    · intro h hmem
      rw [label_of_name, if_pos hmem] at h
      omega
    · intro h
      rw [label_of_name, if_neg h]
  · intro h
    rw [label_of_name, if_pos h]
    refine ⟨rfl, ?_⟩
    simp [List.getElem?_eq_getElem (List.indexOf_lt_length.2 h),
      List.getElem_indexOf]

/-! ### Pruned lookups for the KITTI / SUNRGBD geometry fields -/

/-- `matToVal` of a non-empty matrix is a value the pruner keeps. -/
theorem keptVal_matToVal {m : Mat} (h : m ≠ []) : keptVal (matToVal m) := by
  simp [matToVal, keptVal, List.map_eq_nil_iff, h]

/-- A matrix product with a non-empty left factor is non-empty. -/
theorem matMul_ne_nil {a : Mat} (b : Mat) (h : a ≠ []) : matMul a b ≠ [] := by
  simp [matMul, List.map_eq_nil_iff, h]

/-- `lidar2cam` is non-empty whenever the rectification matrix is. -/
theorem kitti_lidar2cam_ne_nil {c : KittiCalib} (h : c.R0_rect ≠ []) :
    kitti_lidar2cam c ≠ [] :=
  matMul_ne_nil _ (by simpa [astype_float32] using h)

/-- Pruning a CAM0/1/3 image-info block keeps `cam2img` and `lidar2img`
and reports non-empty, whenever both matrices are non-empty. -/
theorem kitti_cam_info_pruned (p li : Mat) (hp : p ≠ []) (hli : li ≠ []) :
    getVal (clear_data_info_unused_keys (kitti_cam_info p li)).1 "cam2img" =
        some (matToVal p) ∧
    getVal (clear_data_info_unused_keys (kitti_cam_info p li)).1 "lidar2img" =
        some (matToVal li) ∧
    (clear_data_info_unused_keys (kitti_cam_info p li)).2 = false := by
  have h1 : getVal (kitti_cam_info p li) "cam2img" = some (matToVal p) := by
    simp only [kitti_cam_info, getVal_cons_eq, getVal_cons_ne,
      String.reduceEq, ne_eq, not_false_eq_true]
  have h2 : getVal (kitti_cam_info p li) "lidar2img" = some (matToVal li) := by
    simp only [kitti_cam_info, getVal_cons_eq, getVal_cons_ne,
      String.reduceEq, ne_eq, not_false_eq_true]
  have g1 := cduk_lookup_keep (by decide) h1 (keptVal_matToVal hp)
  have g2 := cduk_lookup_keep (by decide) h2 (keptVal_matToVal hli)
  exact ⟨g1, g2, cduk_flag_false_of_lookup g1⟩

/-- Pruning the CAM2 image-info block keeps `lidar2cam` and `lidar2img`
and reports non-empty, whenever the rectification and `P2` matrices are
non-empty. -/
theorem kitti_cam2_info_pruned (ori : KittiSrc)
    (hR : ori.calib.R0_rect ≠ []) (hP2 : ori.calib.P2 ≠ []) :
    getVal (clear_data_info_unused_keys (kitti_cam2_info ori)).1 "lidar2cam" =
        some (matToVal (kitti_lidar2cam ori.calib)) ∧
    getVal (clear_data_info_unused_keys (kitti_cam2_info ori)).1 "lidar2img" =
        some (matToVal (matMul ori.calib.P2 (kitti_lidar2cam ori.calib))) ∧
    (clear_data_info_unused_keys (kitti_cam2_info ori)).2 = false := by
  have h1 : getVal (kitti_cam2_info ori) "lidar2cam" =
      some (matToVal (kitti_lidar2cam ori.calib)) := by
    simp only [kitti_cam2_info, getVal_cons_eq, getVal_cons_ne,
      String.reduceEq, ne_eq, not_false_eq_true]
  have h2 : getVal (kitti_cam2_info ori) "lidar2img" =
      some (matToVal (matMul ori.calib.P2 (kitti_lidar2cam ori.calib))) := by
    simp only [kitti_cam2_info, getVal_cons_eq, getVal_cons_ne,
      String.reduceEq, ne_eq, not_false_eq_true]
  have g1 := cduk_lookup_keep (by decide) h1
    (keptVal_matToVal (kitti_lidar2cam_ne_nil hR))
  have g2 := cduk_lookup_keep (by decide) h2
    (keptVal_matToVal (matMul_ne_nil _ hP2))
  exact ⟨g1, g2, cduk_flag_false_of_lookup g1⟩

/-- Pruning the populated KITTI `images` dictionary: each camera key maps
to its pruned block, `R0_rect` is kept, and the verdict is non-empty. -/
theorem kitti_images_pruned (ori : KittiSrc)
    (hR : ori.calib.R0_rect ≠ []) (hP0 : ori.calib.P0 ≠ [])
    (hP1 : ori.calib.P1 ≠ []) (hP2 : ori.calib.P2 ≠ [])
    (hP3 : ori.calib.P3 ≠ []) :
    getVal (clear_data_info_unused_keys (kitti_images_val ori)).1 "CAM0" =
        some (Val.vdict (clear_data_info_unused_keys (kitti_cam_info
          ori.calib.P0 (matMul ori.calib.P0 (kitti_lidar2cam ori.calib)))).1) ∧
    getVal (clear_data_info_unused_keys (kitti_images_val ori)).1 "CAM1" =
        some (Val.vdict (clear_data_info_unused_keys (kitti_cam_info
          ori.calib.P1 (matMul ori.calib.P1 (kitti_lidar2cam ori.calib)))).1) ∧
    getVal (clear_data_info_unused_keys (kitti_images_val ori)).1 "CAM2" =
        some (Val.vdict (clear_data_info_unused_keys (kitti_cam2_info ori)).1) ∧
    getVal (clear_data_info_unused_keys (kitti_images_val ori)).1 "CAM3" =
        some (Val.vdict (clear_data_info_unused_keys (kitti_cam_info
          ori.calib.P3 (matMul ori.calib.P3 (kitti_lidar2cam ori.calib)))).1) ∧
    getVal (clear_data_info_unused_keys (kitti_images_val ori)).1 "R0_rect" =
        some (matToVal (astype_float32 ori.calib.R0_rect)) ∧
    (clear_data_info_unused_keys (kitti_images_val ori)).2 = false := by
  have l0 : getVal (kitti_images_val ori) "CAM0" = some (Val.vdict
      (kitti_cam_info ori.calib.P0
        (matMul ori.calib.P0 (kitti_lidar2cam ori.calib)))) := by
    simp only [kitti_images_val, getVal_cons_eq, getVal_cons_ne,
      String.reduceEq, ne_eq, not_false_eq_true]
  have l1 : getVal (kitti_images_val ori) "CAM1" = some (Val.vdict
      (kitti_cam_info ori.calib.P1
        (matMul ori.calib.P1 (kitti_lidar2cam ori.calib)))) := by
    simp only [kitti_images_val, getVal_cons_eq, getVal_cons_ne,
      String.reduceEq, ne_eq, not_false_eq_true]
  have l2 : getVal (kitti_images_val ori) "CAM2" =
      some (Val.vdict (kitti_cam2_info ori)) := by
    simp only [kitti_images_val, getVal_cons_eq, getVal_cons_ne,
      String.reduceEq, ne_eq, not_false_eq_true]
  have l3 : getVal (kitti_images_val ori) "CAM3" = some (Val.vdict
      (kitti_cam_info ori.calib.P3
        (matMul ori.calib.P3 (kitti_lidar2cam ori.calib)))) := by
    simp only [kitti_images_val, getVal_cons_eq, getVal_cons_ne,
      String.reduceEq, ne_eq, not_false_eq_true]
  have lr : getVal (kitti_images_val ori) "R0_rect" =
      some (matToVal (astype_float32 ori.calib.R0_rect)) := by
    simp only [kitti_images_val, getVal_cons_eq, getVal_cons_ne,
      String.reduceEq, ne_eq, not_false_eq_true]
  have g0 := cduk_lookup_dict (by decide) l0
    (kitti_cam_info_pruned _ _ hP0 (matMul_ne_nil _ hP0)).2.2
  have g1 := cduk_lookup_dict (by decide) l1
    (kitti_cam_info_pruned _ _ hP1 (matMul_ne_nil _ hP1)).2.2
  have g2 := cduk_lookup_dict (by decide) l2 (kitti_cam2_info_pruned ori hR hP2).2.2
  have g3 := cduk_lookup_dict (by decide) l3
    (kitti_cam_info_pruned _ _ hP3 (matMul_ne_nil _ hP3)).2.2
  have gr := cduk_lookup_keep (by decide) lr
    (keptVal_matToVal (by simpa [astype_float32] using hR))
  exact ⟨g0, g1, g2, g3, gr, cduk_flag_false_of_lookup g0⟩

/-- The populated KITTI record maps `images` to the populated images
dictionary. -/
theorem kitti_record_images_lookup (ori : KittiSrc) :
    getVal (kitti_temp_data_info ori) "images" =
      some (Val.vdict (kitti_images_val ori)) := by
  rw [kitti_temp_eq]
  cases ori.plane <;>
    simp only [List.cons_append, List.nil_append, getVal_cons_eq,
      getVal_cons_ne, String.reduceEq, ne_eq, not_false_eq_true]

/-- The populated KITTI record maps `lidar_points` to the populated
lidar-points dictionary. -/
theorem kitti_record_lidar_points_lookup (ori : KittiSrc) :
    getVal (kitti_temp_data_info ori) "lidar_points" =
      some (Val.vdict (kitti_lidar_points_val ori)) := by
  rw [kitti_temp_eq]
  cases ori.plane <;>
    simp only [List.cons_append, List.nil_append, getVal_cons_eq,
      getVal_cons_ne, String.reduceEq, ne_eq, not_false_eq_true]

/-- Pruning the populated KITTI `lidar_points` dictionary keeps the two
extra calibration matrices and reports non-empty. -/
theorem kitti_lidar_points_pruned (ori : KittiSrc)
    (htrv : ori.calib.Tr_velo_to_cam ≠ [])
    (htri : ori.calib.Tr_imu_to_velo ≠ []) :
    getVal (clear_data_info_unused_keys (kitti_lidar_points_val ori)).1
        "Tr_velo_to_cam" =
      some (matToVal (astype_float32 ori.calib.Tr_velo_to_cam)) ∧
    getVal (clear_data_info_unused_keys (kitti_lidar_points_val ori)).1
        "Tr_imu_to_velo" =
      some (matToVal (astype_float32 ori.calib.Tr_imu_to_velo)) ∧
    (clear_data_info_unused_keys (kitti_lidar_points_val ori)).2 = false := by
  have h1 : getVal (kitti_lidar_points_val ori) "Tr_velo_to_cam" =
      some (matToVal (astype_float32 ori.calib.Tr_velo_to_cam)) := by
    simp only [kitti_lidar_points_val, getVal_cons_eq, getVal_cons_ne,
      String.reduceEq, ne_eq, not_false_eq_true]
  have h2 : getVal (kitti_lidar_points_val ori) "Tr_imu_to_velo" =
      some (matToVal (astype_float32 ori.calib.Tr_imu_to_velo)) := by
    simp only [kitti_lidar_points_val, getVal_cons_eq, getVal_cons_ne,
      String.reduceEq, ne_eq, not_false_eq_true]
  have g1 := cduk_lookup_keep (by decide) h1
    (keptVal_matToVal (by simpa [astype_float32] using htrv))
  have g2 := cduk_lookup_keep (by decide) h2
    (keptVal_matToVal (by simpa [astype_float32] using htri))
  exact ⟨g1, g2, cduk_flag_false_of_lookup g1⟩

/-- Pruning the SUNRGBD CAM0 block keeps `depth2img` and reports
non-empty, whenever the intrinsic matrix is non-empty. -/
theorem sunrgbd_cam0_pruned (ori : SunrgbdSrc) (hK : ori.calib.K ≠ []) :
    getVal (clear_data_info_unused_keys (sunrgbd_cam0_info ori)).1 "depth2img" =
        some (matToVal (sunrgbd_depth2img ori.calib)) ∧
    (clear_data_info_unused_keys (sunrgbd_cam0_info ori)).2 = false := by
  have h1 : getVal (sunrgbd_cam0_info ori) "depth2img" =
      some (matToVal (sunrgbd_depth2img ori.calib)) := by
    simp only [sunrgbd_cam0_info, getVal_cons_eq, getVal_cons_ne,
      String.reduceEq, ne_eq, not_false_eq_true]
  have g1 := cduk_lookup_keep (by decide) h1
    (keptVal_matToVal (matMul_ne_nil _ hK))
  exact ⟨g1, cduk_flag_false_of_lookup g1⟩

/-- Pruning the populated SUNRGBD `images` dictionary keeps `CAM0` and
reports non-empty. -/
theorem sunrgbd_images_pruned (ori : SunrgbdSrc) (hK : ori.calib.K ≠ []) :
    getVal (clear_data_info_unused_keys (sunrgbd_images_val ori)).1 "CAM0" =
        some (Val.vdict (clear_data_info_unused_keys (sunrgbd_cam0_info ori)).1) ∧
    (clear_data_info_unused_keys (sunrgbd_images_val ori)).2 = false := by
  have l0 : getVal (sunrgbd_images_val ori) "CAM0" =
      some (Val.vdict (sunrgbd_cam0_info ori)) := by
    simp only [sunrgbd_images_val, getVal_cons_eq, getVal_cons_ne,
      String.reduceEq, ne_eq, not_false_eq_true]
  have g0 := cduk_lookup_dict (by decide) l0 (sunrgbd_cam0_pruned ori hK).2
  exact ⟨g0, cduk_flag_false_of_lookup g0⟩

/-- The populated SUNRGBD record maps `images` to the populated images
dictionary. -/
theorem sunrgbd_record_images_lookup (ori : SunrgbdSrc) :
    getVal (sunrgbd_temp_data_info ori) "images" =
      some (Val.vdict (sunrgbd_images_val ori)) := by
  rw [sunrgbd_temp_eq]
  simp only [getVal_cons_eq, getVal_cons_ne, String.reduceEq, ne_eq,
    not_false_eq_true]

/-! ### Claim theorems -/

/-- C1 counterexample: on the record `{'instances': []}` every field
other than `instances` has (vacuously) been removed, yet the emptiness
verdict is `false` — the code sets `empty_flag = False` upon *seeing* the
`instances` key, so an `instances` field does count toward (non-)
emptiness. -/
theorem C1_counterexample :
    (clear_data_info_unused_keys [("instances", Val.vlist [])]).1 =
        [("instances", Val.vlist [])] ∧
    (clear_data_info_unused_keys [("instances", Val.vlist [])]).2 = false := by
  rw [cduk_instances, cduk_nil]
  exact ⟨rfl, rfl⟩

/-- C1 (amended): the pruner never removes an `instances` field, and the
returned emptiness boolean is true iff every field of the input
(including any `instances` field, whose mere presence therefore forces a
`false` verdict even with an empty list) was removed. -/
theorem C1_instances_kept_and_emptiness (fs : Fields) :
    (∀ v : Val, ("instances", v) ∈ fs →
      ("instances", v) ∈ (clear_data_info_unused_keys fs).1) ∧
    (∀ v : Val, ("instances", v) ∈ fs →
      (clear_data_info_unused_keys fs).2 = false) ∧
    ((clear_data_info_unused_keys fs).2 = true ↔
      (clear_data_info_unused_keys fs).1 = []) := by
  refine ⟨fun v h => cduk_mem_instances h, fun v h => ?_, cduk_flag_iff_nil fs⟩
  have hmem := cduk_mem_instances h
  cases hf : (clear_data_info_unused_keys fs).2 with
  | false => rfl
  | true =>
      rw [(cduk_flag_iff_nil fs).1 hf] at hmem
      cases hmem

/-- C1 witness: the amended statement evaluated on `{'instances': []}`. -/
theorem C1_instances_kept_and_emptiness_witness :
    ("instances", Val.vlist []) ∈
      (clear_data_info_unused_keys [("instances", Val.vlist [])]).1 ∧
    (clear_data_info_unused_keys [("instances", Val.vlist [])]).2 = false :=
  ⟨(C1_instances_kept_and_emptiness [("instances", Val.vlist [])]).1
      (Val.vlist []) (List.mem_singleton.2 rfl),
   (C1_instances_kept_and_emptiness [("instances", Val.vlist [])]).2.1
      (Val.vlist []) (List.mem_singleton.2 rfl)⟩

/-- C2: both pruners are idempotent — re-pruning a pruned record changes
nothing, including the emptiness verdict of the record pruner. -/
theorem C2_pruner_idempotent (fs inst : Fields) :
    clear_data_info_unused_keys (clear_data_info_unused_keys fs).1 =
      clear_data_info_unused_keys fs ∧
    clear_instance_unused_keys (clear_instance_unused_keys inst) =
      clear_instance_unused_keys inst :=
  ⟨cduk_idem fs, ciuk_idem inst⟩

/-- C4: in every converted KITTI record, `lidar2cam` is exactly
`R0_rect @ Tr_velo_to_cam`, and each camera `CAMk` carries
`lidar2img = Pk @ lidar2cam` (exact composition in the rational
idealisation of float32 arithmetic; the non-emptiness hypotheses say the
calibration matrices have at least one row, as every real 3×4/4×4 KITTI
calibration does). -/
theorem C4_kitti_matrix_composition (ori : KittiSrc)
    (hR : ori.calib.R0_rect ≠ []) (hP0 : ori.calib.P0 ≠ [])
    (hP1 : ori.calib.P1 ≠ []) (hP2 : ori.calib.P2 ≠ [])
    (hP3 : ori.calib.P3 ≠ []) :
    ∃ imgs cam0 cam1 cam2 cam3 : Fields,
      getVal (convert_kitti_record ori) "images" = some (Val.vdict imgs) ∧
      getVal imgs "CAM0" = some (Val.vdict cam0) ∧
      getVal imgs "CAM1" = some (Val.vdict cam1) ∧
      getVal imgs "CAM2" = some (Val.vdict cam2) ∧
      getVal imgs "CAM3" = some (Val.vdict cam3) ∧
      getVal cam2 "lidar2cam" =
        some (matToVal (matMul ori.calib.R0_rect ori.calib.Tr_velo_to_cam)) ∧
      getVal cam0 "lidar2img" = some (matToVal (matMul ori.calib.P0
        (matMul ori.calib.R0_rect ori.calib.Tr_velo_to_cam))) ∧
      getVal cam1 "lidar2img" = some (matToVal (matMul ori.calib.P1
        (matMul ori.calib.R0_rect ori.calib.Tr_velo_to_cam))) ∧
      getVal cam2 "lidar2img" = some (matToVal (matMul ori.calib.P2
        (matMul ori.calib.R0_rect ori.calib.Tr_velo_to_cam))) ∧
      getVal cam3 "lidar2img" = some (matToVal (matMul ori.calib.P3
        (matMul ori.calib.R0_rect ori.calib.Tr_velo_to_cam))) := by
  have hL : kitti_lidar2cam ori.calib =
      matMul ori.calib.R0_rect ori.calib.Tr_velo_to_cam := rfl
  have himgs := kitti_images_pruned ori hR hP0 hP1 hP2 hP3
  have htop : getVal (convert_kitti_record ori) "images" =
      some (Val.vdict (clear_data_info_unused_keys (kitti_images_val ori)).1) := by
    rw [convert_kitti_record, prunedFields_eq]
    exact cduk_lookup_dict (by decide) (kitti_record_images_lookup ori)
      himgs.2.2.2.2.2
  refine ⟨_, _, _, _, _, htop, himgs.1, himgs.2.1, himgs.2.2.1,
    himgs.2.2.2.1, ?_, ?_, ?_, ?_, ?_⟩
  · rw [← hL]; exact (kitti_cam2_info_pruned ori hR hP2).1
  · rw [← hL]; exact (kitti_cam_info_pruned _ _ hP0 (matMul_ne_nil _ hP0)).2.1
  · rw [← hL]; exact (kitti_cam_info_pruned _ _ hP1 (matMul_ne_nil _ hP1)).2.1
  · rw [← hL]; exact (kitti_cam2_info_pruned ori hR hP2).2.1
  · rw [← hL]; exact (kitti_cam_info_pruned _ _ hP3 (matMul_ne_nil _ hP3)).2.1

/-- C4 witness: the composition property evaluated on a concrete KITTI
record. -/
theorem C4_kitti_matrix_composition_witness :
    ∃ imgs cam0 cam1 cam2 cam3 : Fields,
      getVal (convert_kitti_record (sampleKittiSrc ["Car"])) "images" =
        some (Val.vdict imgs) ∧
      getVal imgs "CAM0" = some (Val.vdict cam0) ∧
      getVal imgs "CAM1" = some (Val.vdict cam1) ∧
      getVal imgs "CAM2" = some (Val.vdict cam2) ∧
      getVal imgs "CAM3" = some (Val.vdict cam3) ∧
      getVal cam2 "lidar2cam" =
        some (matToVal (matMul (sampleKittiSrc ["Car"]).calib.R0_rect
          (sampleKittiSrc ["Car"]).calib.Tr_velo_to_cam)) ∧
      getVal cam0 "lidar2img" =
        some (matToVal (matMul (sampleKittiSrc ["Car"]).calib.P0
          (matMul (sampleKittiSrc ["Car"]).calib.R0_rect
            (sampleKittiSrc ["Car"]).calib.Tr_velo_to_cam))) ∧
      getVal cam1 "lidar2img" =
        some (matToVal (matMul (sampleKittiSrc ["Car"]).calib.P1
          (matMul (sampleKittiSrc ["Car"]).calib.R0_rect
            (sampleKittiSrc ["Car"]).calib.Tr_velo_to_cam))) ∧
      getVal cam2 "lidar2img" =
        some (matToVal (matMul (sampleKittiSrc ["Car"]).calib.P2
          (matMul (sampleKittiSrc ["Car"]).calib.R0_rect
            (sampleKittiSrc ["Car"]).calib.Tr_velo_to_cam))) ∧
      getVal cam3 "lidar2img" =
        some (matToVal (matMul (sampleKittiSrc ["Car"]).calib.P3
          (matMul (sampleKittiSrc ["Car"]).calib.R0_rect
            (sampleKittiSrc ["Car"]).calib.Tr_velo_to_cam))) :=
  C4_kitti_matrix_composition (sampleKittiSrc ["Car"]) (by decide) (by decide)
    (by decide) (by decide) (by decide)

/-- C5: in every converted SUNRGBD record, `images.CAM0.depth2img` equals
`K @ (F @ Rt^T)` where `F` is the fixed coordinate-flip matrix
`[[1,0,0],[0,0,-1],[0,1,0]]` (the hypothesis says the intrinsic matrix
has at least one row, as every real 3×3 intrinsic does). -/
theorem C5_sunrgbd_depth2img (ori : SunrgbdSrc) (hK : ori.calib.K ≠ []) :
    sunrgbd_flip = [[1, 0, 0], [0, 0, -1], [0, 1, 0]] ∧
    ∃ imgs cam0 : Fields,
      getVal (convert_sunrgbd_record ori) "images" = some (Val.vdict imgs) ∧
      getVal imgs "CAM0" = some (Val.vdict cam0) ∧
      getVal cam0 "depth2img" =
        some (matToVal (matMul ori.calib.K
          (matMul sunrgbd_flip (matTranspose ori.calib.Rt)))) := by
  have himgs := sunrgbd_images_pruned ori hK
  have htop : getVal (convert_sunrgbd_record ori) "images" =
      some (Val.vdict (clear_data_info_unused_keys (sunrgbd_images_val ori)).1) := by
    rw [convert_sunrgbd_record, prunedFields_eq]
    exact cduk_lookup_dict (by decide) (sunrgbd_record_images_lookup ori)
      himgs.2
  exact ⟨rfl, _, _, htop, himgs.1, (sunrgbd_cam0_pruned ori hK).1⟩

/-- C5 witness: the depth2img property evaluated on a concrete SUNRGBD
record. -/
theorem C5_sunrgbd_depth2img_witness :
    sunrgbd_flip = [[1, 0, 0], [0, 0, -1], [0, 1, 0]] ∧
    ∃ imgs cam0 : Fields,
      getVal (convert_sunrgbd_record (sampleSunrgbdSrc ["bed"])) "images" =
        some (Val.vdict imgs) ∧
      getVal imgs "CAM0" = some (Val.vdict cam0) ∧
      getVal cam0 "depth2img" =
        some (matToVal (matMul (sampleSunrgbdSrc ["bed"]).calib.K
          (matMul sunrgbd_flip
            (matTranspose (sampleSunrgbdSrc ["bed"]).calib.Rt)))) :=
  C5_sunrgbd_depth2img (sampleSunrgbdSrc ["bed"]) (by decide)

/-- C10: every converted KITTI record's `images` mapping carries, besides
the four camera entries, the non-camera key `R0_rect` with the
rectification matrix; and its `lidar_points` mapping carries the extra
calibration keys `Tr_velo_to_cam` and `Tr_imu_to_velo`. -/
theorem C10_kitti_extra_calibration_keys (ori : KittiSrc)
    (hR : ori.calib.R0_rect ≠ []) (hP0 : ori.calib.P0 ≠ [])
    (hP1 : ori.calib.P1 ≠ []) (hP2 : ori.calib.P2 ≠ [])
    (hP3 : ori.calib.P3 ≠ []) (htrv : ori.calib.Tr_velo_to_cam ≠ [])
    (htri : ori.calib.Tr_imu_to_velo ≠ []) :
    ∃ imgs lp : Fields,
      getVal (convert_kitti_record ori) "images" = some (Val.vdict imgs) ∧
      (∃ c0, getVal imgs "CAM0" = some (Val.vdict c0)) ∧
      (∃ c1, getVal imgs "CAM1" = some (Val.vdict c1)) ∧
      (∃ c2, getVal imgs "CAM2" = some (Val.vdict c2)) ∧
      (∃ c3, getVal imgs "CAM3" = some (Val.vdict c3)) ∧
      getVal imgs "R0_rect" = some (matToVal ori.calib.R0_rect) ∧
      getVal (convert_kitti_record ori) "lidar_points" = some (Val.vdict lp) ∧
      getVal lp "Tr_velo_to_cam" = some (matToVal ori.calib.Tr_velo_to_cam) ∧
      getVal lp "Tr_imu_to_velo" = some (matToVal ori.calib.Tr_imu_to_velo) := by
  have himgs := kitti_images_pruned ori hR hP0 hP1 hP2 hP3
  have hlp := kitti_lidar_points_pruned ori htrv htri
  have htop : getVal (convert_kitti_record ori) "images" =
      some (Val.vdict (clear_data_info_unused_keys (kitti_images_val ori)).1) := by
    rw [convert_kitti_record, prunedFields_eq]
    exact cduk_lookup_dict (by decide) (kitti_record_images_lookup ori)
      himgs.2.2.2.2.2
  have htop2 : getVal (convert_kitti_record ori) "lidar_points" =
      some (Val.vdict
        (clear_data_info_unused_keys (kitti_lidar_points_val ori)).1) := by
    rw [convert_kitti_record, prunedFields_eq]
    exact cduk_lookup_dict (by decide) (kitti_record_lidar_points_lookup ori)
      hlp.2.2
  exact ⟨_, _, htop, ⟨_, himgs.1⟩, ⟨_, himgs.2.1⟩, ⟨_, himgs.2.2.1⟩,
    ⟨_, himgs.2.2.2.1⟩, himgs.2.2.2.2.1, htop2, hlp.1, hlp.2.1⟩

/-- C10 witness: the extra calibration keys on a concrete KITTI record. -/
theorem C10_kitti_extra_calibration_keys_witness :
    ∃ imgs lp : Fields,
      getVal (convert_kitti_record (sampleKittiSrc ["Car"])) "images" =
        some (Val.vdict imgs) ∧
      (∃ c0, getVal imgs "CAM0" = some (Val.vdict c0)) ∧
      (∃ c1, getVal imgs "CAM1" = some (Val.vdict c1)) ∧
      (∃ c2, getVal imgs "CAM2" = some (Val.vdict c2)) ∧
      (∃ c3, getVal imgs "CAM3" = some (Val.vdict c3)) ∧
      getVal imgs "R0_rect" =
        some (matToVal (sampleKittiSrc ["Car"]).calib.R0_rect) ∧
      getVal (convert_kitti_record (sampleKittiSrc ["Car"])) "lidar_points" =
        some (Val.vdict lp) ∧
      getVal lp "Tr_velo_to_cam" =
        some (matToVal (sampleKittiSrc ["Car"]).calib.Tr_velo_to_cam) ∧
      getVal lp "Tr_imu_to_velo" =
        some (matToVal (sampleKittiSrc ["Car"]).calib.Tr_imu_to_velo) :=
  C10_kitti_extra_calibration_keys (sampleKittiSrc ["Car"]) (by decide)
    (by decide) (by decide) (by decide) (by decide) (by decide) (by decide)

/-- C3: in all three adapters, the emitted label of every processed raw
category name is either the name's positional index in that dataset's
vocabulary or exactly `-1`; it is `-1` iff the name is absent from the
vocabulary; and the instance is retained either way (one instance per
annotation row).  For ScanNet, names are only processed when
`gt_num != 0`. -/
theorem C3_label_remap (ka : KittiAnnos) (sa : ScannetAnnos)
    (ua : SunrgbdAnnos) (i j l : Nat) (hi : i < ka.name.length)
    (hgt : sa.gt_num ≠ 0) (hj : j < sa.name.length)
    (hl : l < ua.name.length) :
    (kitti_instance_list ka).length = ka.name.length ∧
    (scannet_instance_list sa).length = sa.name.length ∧
    (sunrgbd_instance_list ua).length = ua.name.length ∧
    (∃ inst : Fields, ∃ lab : Int,
      (kitti_instance_list ka)[i]? = some inst ∧
      getVal inst "bbox_label" = some (Val.vint lab) ∧
      (lab = -1 ↔ ka.name[i] ∉ KITTI_CLASSES) ∧
      (ka.name[i] ∈ KITTI_CLASSES →
        lab = (KITTI_CLASSES.indexOf ka.name[i] : Int) ∧
        KITTI_CLASSES[lab.toNat]? = some ka.name[i])) ∧
    (∃ inst : Fields, ∃ lab : Int,
      (scannet_instance_list sa)[j]? = some inst ∧
      getVal inst "bbox_label_3d" = some (Val.vint lab) ∧
      (lab = -1 ↔ sa.name[j] ∉ SCANNET_CLASSES) ∧
      (sa.name[j] ∈ SCANNET_CLASSES →
        lab = (SCANNET_CLASSES.indexOf sa.name[j] : Int) ∧
        SCANNET_CLASSES[lab.toNat]? = some sa.name[j])) ∧
    (∃ inst : Fields, ∃ lab : Int,
      (sunrgbd_instance_list ua)[l]? = some inst ∧
      getVal inst "bbox_label_3d" = some (Val.vint lab) ∧
      (lab = -1 ↔ ua.name[l] ∉ SUNRGBD_CLASSES) ∧
      (ua.name[l] ∈ SUNRGBD_CLASSES →
        lab = (SUNRGBD_CLASSES.indexOf ua.name[l] : Int) ∧
        SUNRGBD_CLASSES[lab.toNat]? = some ua.name[l])) := by
  have hgk : ka.name.getD i "" = ka.name[i] := by
    simp [List.getD_eq_getElem?_getD, List.getElem?_eq_getElem hi]
  have hgs : sa.name.getD j "" = sa.name[j] := by
    simp [List.getD_eq_getElem?_getD, List.getElem?_eq_getElem hj]
  have hgu : ua.name.getD l "" = ua.name[l] := by
    simp [List.getD_eq_getElem?_getD, List.getElem?_eq_getElem hl]
  refine ⟨by simp [kitti_instance_list],
    by simp [scannet_instance_list, hgt],
    by simp [sunrgbd_instance_list], ?_, ?_, ?_⟩
  · refine ⟨kitti_instance ka i, label_of_name KITTI_CLASSES ka.name[i], ?_,
      ?_, (label_of_name_spec _ _).1, (label_of_name_spec _ _).2⟩
    · simp [kitti_instance_list, List.getElem?_range, hi]
    · rw [kitti_bbox_label_lookup, hgk]
  · refine ⟨scannet_instance sa j, label_of_name SCANNET_CLASSES sa.name[j],
      ?_, ?_, (label_of_name_spec _ _).1, (label_of_name_spec _ _).2⟩
    · simp [scannet_instance_list, hgt, List.getElem?_range, hj]
    · rw [scannet_bbox_label_3d_lookup, hgs]
  · refine ⟨sunrgbd_instance ua l, label_of_name SUNRGBD_CLASSES ua.name[l],
      ?_, ?_, (label_of_name_spec _ _).1, (label_of_name_spec _ _).2⟩
    · simp [sunrgbd_instance_list, List.getElem?_range, hl]
    · rw [sunrgbd_bbox_label_3d_lookup, hgu]

/-- C3 witness: the label remap on concrete records — a recognised name
("Car" / "chair" / "bed") in each dataset. -/
theorem C3_label_remap_witness :
    (kitti_instance_list (sampleKittiAnnos ["Car"])).length =
        (sampleKittiAnnos ["Car"]).name.length ∧
    (scannet_instance_list (sampleScannetAnnos 1 ["chair"])).length =
        (sampleScannetAnnos 1 ["chair"]).name.length ∧
    (sunrgbd_instance_list (sampleSunrgbdSrc ["bed"]).annos).length =
        (sampleSunrgbdSrc ["bed"]).annos.name.length ∧
    (∃ inst : Fields, ∃ lab : Int,
      (kitti_instance_list (sampleKittiAnnos ["Car"]))[0]? = some inst ∧
      getVal inst "bbox_label" = some (Val.vint lab) ∧
      (lab = -1 ↔ (sampleKittiAnnos ["Car"]).name[0] ∉ KITTI_CLASSES) ∧
      ((sampleKittiAnnos ["Car"]).name[0] ∈ KITTI_CLASSES →
        lab = (KITTI_CLASSES.indexOf (sampleKittiAnnos ["Car"]).name[0] : Int) ∧
        KITTI_CLASSES[lab.toNat]? = some (sampleKittiAnnos ["Car"]).name[0])) ∧
    (∃ inst : Fields, ∃ lab : Int,
      (scannet_instance_list (sampleScannetAnnos 1 ["chair"]))[0]? = some inst ∧
      getVal inst "bbox_label_3d" = some (Val.vint lab) ∧
      (lab = -1 ↔ (sampleScannetAnnos 1 ["chair"]).name[0] ∉ SCANNET_CLASSES) ∧
      ((sampleScannetAnnos 1 ["chair"]).name[0] ∈ SCANNET_CLASSES →
        lab = (SCANNET_CLASSES.indexOf
          (sampleScannetAnnos 1 ["chair"]).name[0] : Int) ∧
        SCANNET_CLASSES[lab.toNat]? =
          some (sampleScannetAnnos 1 ["chair"]).name[0])) ∧
    (∃ inst : Fields, ∃ lab : Int,
      (sunrgbd_instance_list (sampleSunrgbdSrc ["bed"]).annos)[0]? = some inst ∧
      getVal inst "bbox_label_3d" = some (Val.vint lab) ∧
      (lab = -1 ↔ (sampleSunrgbdSrc ["bed"]).annos.name[0] ∉ SUNRGBD_CLASSES) ∧
      ((sampleSunrgbdSrc ["bed"]).annos.name[0] ∈ SUNRGBD_CLASSES →
        lab = (SUNRGBD_CLASSES.indexOf
          (sampleSunrgbdSrc ["bed"]).annos.name[0] : Int) ∧
        SUNRGBD_CLASSES[lab.toNat]? =
          some (sampleSunrgbdSrc ["bed"]).annos.name[0])) :=
  C3_label_remap (sampleKittiAnnos ["Car"]) (sampleScannetAnnos 1 ["chair"])
    (sampleSunrgbdSrc ["bed"]).annos 0 0 0 (by decide) (by decide) (by decide)
    (by decide)

/-- C7: a ScanNet source record with `gt_num == 0` converts to a record
whose `instances` field is present and an empty list, and the record is
still appended to the output `data_list` (never dropped). -/
theorem C7_scannet_zero_gt_instances (ori : ScannetSrc)
    (h : ori.annos.gt_num = 0) (pkl out : String)
    (rest : List ScannetSrc) :
    getVal (convert_scannet_record ori) "instances" = some (Val.vlist []) ∧
    (update_scannet_infos pkl out (rest ++ [ori])).2.1 =
      (update_scannet_infos pkl out rest).2.1 ++ [convert_scannet_record ori] := by
  constructor
  · rw [scannet_instances_lookup]
    simp [scannet_instance_list, h]
  · simp [update_scannet_infos]

/-- C7 witness: a concrete ScanNet record with `gt_num = 0`. -/
theorem C7_scannet_zero_gt_instances_witness :
    getVal (convert_scannet_record (sampleScannetSrc 0 [])) "instances" =
      some (Val.vlist []) ∧
    (update_scannet_infos "scannet_infos_train.pkl" "out"
        ([] ++ [sampleScannetSrc 0 []])).2.1 =
      (update_scannet_infos "scannet_infos_train.pkl" "out" []).2.1 ++
        [convert_scannet_record (sampleScannetSrc 0 [])] :=
  C7_scannet_zero_gt_instances (sampleScannetSrc 0 []) (by decide)
    "scannet_infos_train.pkl" "out" []

/-- C8 counterexample: with input path `"a"` and output directory
`"xay"`, the output string textually contains the input path, yet the
code's check `out_dir in pkl_path` is false, so no warning or delay
occurs — the claim's containment direction is reversed. -/
theorem C8_counterexample :
    py_in "a" "xay" = true ∧
    (update_kitti_infos "a" "xay" []).1 = false :=
  ⟨by decide, by decide⟩

/-- C8 (amended): each update routine emits the warning and delay iff the
*input* pkl path textually contains the output-directory string (the code
checks `out_dir in pkl_path`), and it proceeds with the conversion either
way, emitting one converted record per source record. -/
theorem C8_overwrite_warning_direction (pkl_path out_dir : String)
    (ks : List KittiSrc) (ss : List ScannetSrc) (us : List SunrgbdSrc) :
    ((update_kitti_infos pkl_path out_dir ks).1 = true ↔
      ∃ pre post : List Char,
        pre ++ out_dir.toList ++ post = pkl_path.toList) ∧
    (update_scannet_infos pkl_path out_dir ss).1 =
      (update_kitti_infos pkl_path out_dir ks).1 ∧
    (update_sunrgbd_infos pkl_path out_dir us).1 =
      (update_kitti_infos pkl_path out_dir ks).1 ∧
    (update_kitti_infos pkl_path out_dir ks).2.1.length = ks.length ∧
    (update_scannet_infos pkl_path out_dir ss).2.1.length = ss.length ∧
    (update_sunrgbd_infos pkl_path out_dir us).2.1.length = us.length := by
  refine ⟨?_, rfl, rfl, by simp [update_kitti_infos],
    by simp [update_scannet_infos], by simp [update_sunrgbd_infos]⟩
  simp only [update_kitti_infos, py_in, decide_eq_true_eq]
  exact Iff.rfl

/-- C6: the KITTI loop re-initialises `ignore_class_name` inside the
per-record loop, so the end-of-run report only reflects the last record:
with the unknown name in the first of two records, the reported set is
empty (and with an empty collection there is no set to report at all),
while the first record's own loop left `{"Unknown1"}`. -/
theorem C6_ignored_set_last_record_only :
    (update_kitti_infos "kitti_infos_train.pkl" "out"
        [sampleKittiSrc ["Unknown1"], sampleKittiSrc ["Car"]]).2.2 =
      some [] ∧
    kitti_ignored (sampleKittiAnnos ["Unknown1"]) = ["Unknown1"] ∧
    (update_kitti_infos "kitti_infos_train.pkl" "out"
        ([] : List KittiSrc)).2.2 = none := by
  refine ⟨?_, ?_, rfl⟩
  · simp [update_kitti_infos, kitti_ignored, sampleKittiSrc,
      sampleKittiAnnos, KITTI_CLASSES, setAdd]
  · simp [kitti_ignored, sampleKittiAnnos, KITTI_CLASSES, setAdd]

/-- C9: the dataset dispatch lower-cases the identifier and selects the
matching adapter for exactly `kitti`, `scannet`, `sunrgbd`; every other
identifier produces the unsupported-dataset error (before any conversion
work, since `main` raises instead of calling an update routine). -/
theorem C9_dataset_dispatch (dataset : String) :
    (py_lower dataset = "kitti" →
      select_adapter dataset = Except.ok Adapter.kitti) ∧
    (py_lower dataset = "scannet" →
      select_adapter dataset = Except.ok Adapter.scannet) ∧
    (py_lower dataset = "sunrgbd" →
      select_adapter dataset = Except.ok Adapter.sunrgbd) ∧
    (py_lower dataset ∉ (["kitti", "scannet", "sunrgbd"] : List String) →
      select_adapter dataset =
        Except.error ("Do not support convert " ++ dataset ++ " to v2.")) := by
  refine ⟨fun h => ?_, fun h => ?_, fun h => ?_, fun h => ?_⟩
  · simp [select_adapter, h]
  · simp [select_adapter, h]
  · simp [select_adapter, h]
  · simp only [List.mem_cons, List.mem_singleton, not_or] at h
    obtain ⟨h1, h2, h3⟩ := h
    simp [select_adapter, h1, h2, h3]

/-- C9 witness: mixed-case identifiers select their adapters; an unknown
identifier errors. -/
theorem C9_dataset_dispatch_witness :
    select_adapter "KiTTi" = Except.ok Adapter.kitti ∧
    select_adapter "ScanNet" = Except.ok Adapter.scannet ∧
    select_adapter "SUNRGBD" = Except.ok Adapter.sunrgbd ∧
    select_adapter "lyft" =
      Except.error ("Do not support convert " ++ "lyft" ++ " to v2.") :=
  ⟨(C9_dataset_dispatch "KiTTi").1 (by decide),
   (C9_dataset_dispatch "ScanNet").2.1 (by decide),
   (C9_dataset_dispatch "SUNRGBD").2.2.1 (by decide),
   (C9_dataset_dispatch "lyft").2.2.2 (by decide)⟩
